import Mathlib

/-!
# HiGHS: option records, the option set and the QP test scenarios

A shallow embedding of

* `src/lp_data/HighsOptions.h`: the four option record classes, their
  constructors and `assignvalue`, `HighsOptionsStruct` and
  `HighsOptions::initRecords`;
* `src/lp_data/HighsOptions.h`: the constructors and assignment operators of
  `HighsOptions`;
* `src/Highs.h`: the data members of `Highs`, its constructor from options and
  `setBasis`;
* `check/TestQpSolver.cpp`: the model data of the test cases `qpsolver` and
  `test-qo1`.

Conventions.

* A `double` is a value of `Double`: NaN, the two infinities, or a finite
  value written as an exact rational.  Only comparisons and stores are made on
  option values, and comparisons follow IEEE 754 (every comparison with NaN is
  false).  Rounding of decimal literals is not modelled.
* `HighsInt` is `Int`; no arithmetic is done on option values.
* A pointer to a member of a `HighsOptions` object is the address of the object
  together with the name of the member.  Memory maps addresses to objects.
-/

namespace HiGHS

/-! ## Scalars -/

/-- A C++ `double`, up to rounding: NaN, minus infinity, a finite value, plus infinity. -/
inductive Double where
  | nan
  | ninf
  | fin (q : ℚ)
  | pinf
  deriving DecidableEq

namespace Double

/-- The comparison `a <= b` of two doubles (false when either is NaN). -/
def le : Double → Double → Bool
  | nan, _ => false
  | _, nan => false
  | ninf, _ => true
  | fin _, ninf => false
  | fin a, fin b => decide (a ≤ b)
  | fin _, pinf => true
  | pinf, pinf => true
  | pinf, _ => false

/-- The comparison `a < b` of two doubles (false when either is NaN). -/
def lt : Double → Double → Bool
  | nan, _ => false
  | _, nan => false
  | ninf, ninf => false
  | ninf, _ => true
  | fin _, ninf => false
  | fin a, fin b => decide (a < b)
  | fin _, pinf => true
  | pinf, _ => false

end Double

/-- `HighsInt`: `int`, or `int64_t` under `HIGHSINT64`. -/
abbrev HighsInt := Int

/-- `enum class OptionStatus { kOk = 0, kUnknownOption, kIllegalValue }`. -/
inductive OptionStatus where
  | kOk
  | kUnknownOption
  | kIllegalValue
  deriving DecidableEq, Repr

/-- `HighsOptionType` (declared in `lp_data/HConst.h`): the tag of an option record. -/
inductive HighsOptionType where
  | kBool
  | kInt
  | kDouble
  | kString
  deriving DecidableEq, Repr

/-! ## The members of `HighsOptionsStruct`

One constructor per option member, by type, in the order of declaration.
`mip_debug_solution_file` exists only under `HIGHS_DEBUGSOL` and is left out;
`log_file_stream`, the logging callbacks and `log_options` are not options. -/

/-- The `std::string` members of `HighsOptionsStruct`. -/
inductive StringField where
  | model_file
  | presolve
  | solver
  | parallel
  | options_file
  | solution_file
  | log_file
  deriving DecidableEq, Repr

/-- The `double` members of `HighsOptionsStruct`. -/
inductive DoubleField where
  | time_limit
  | infinite_cost
  | infinite_bound
  | small_matrix_value
  | large_matrix_value
  | primal_feasibility_tolerance
  | dual_feasibility_tolerance
  | ipm_optimality_tolerance
  | dual_objective_value_upper_bound
  | simplex_initial_condition_tolerance
  | dual_steepest_edge_weight_log_error_threshold
  | dual_simplex_cost_perturbation_multiplier
  | primal_simplex_bound_perturbation_multiplier
  | presolve_pivot_threshold
  | factor_pivot_threshold
  | factor_pivot_tolerance
  | start_crossover_tolerance
  | mip_feasibility_tolerance
  | mip_epsilon
  | mip_heuristic_effort
  deriving DecidableEq, Repr

/-- The `HighsInt` members of `HighsOptionsStruct`. -/
inductive IntField where
  | highs_random_seed
  | highs_debug_level
  | highs_analysis_level
  | simplex_strategy
  | simplex_scale_strategy
  | simplex_crash_strategy
  | simplex_dual_edge_weight_strategy
  | simplex_primal_edge_weight_strategy
  | simplex_iteration_limit
  | simplex_update_limit
  | ipm_iteration_limit
  | highs_min_threads
  | highs_max_threads
  | log_dev_level
  | keep_n_rows
  | allowed_simplex_matrix_scale_factor
  | allowed_simplex_cost_scale_factor
  | simplex_dualise_strategy
  | simplex_permute_strategy
  | simplex_price_strategy
  | presolve_substitution_maxfillin
  | mip_max_nodes
  | mip_max_stall_nodes
  | mip_max_leaves
  | mip_lp_age_limit
  | mip_pool_age_limit
  | mip_pool_soft_limit
  | mip_pscost_minreliable
  | mip_report_level
  deriving DecidableEq, Repr

/-- The `bool` members of `HighsOptionsStruct`. -/
inductive BoolField where
  | write_solution_to_file
  | write_solution_pretty
  | output_flag
  | log_to_console
  | run_crossover
  | mps_parser_type_free
  | dual_simplex_cleanup
  | simplex_initial_condition_check
  | less_infeasible_DSE_check
  | less_infeasible_DSE_choose_row
  | use_original_HFactor_logic
  deriving DecidableEq, Repr

/-- The address of a `HighsOptions` object. -/
abbrev Addr := Nat

/-- A pointer to a member of a `HighsOptions` object, as in `&time_limit`
evaluated inside the object at address `obj`. -/
structure Ptr (F : Type) where
  obj : Addr
  field : F
  deriving DecidableEq, Repr

/-! ## Option records -/

/-- `class OptionRecord`: the members shared by the four kinds of record. -/
structure OptionRecord where
  type : HighsOptionType
  name : String
  description : String
  advanced : Bool
  deriving DecidableEq

/-- `class OptionRecordBool : public OptionRecord`. -/
structure OptionRecordBool extends OptionRecord where
  value : Ptr BoolField
  default_value : Bool
  deriving DecidableEq

/-- `class OptionRecordInt : public OptionRecord`. -/
structure OptionRecordInt extends OptionRecord where
  value : Ptr IntField
  lower_bound : HighsInt
  default_value : HighsInt
  upper_bound : HighsInt
  deriving DecidableEq

/-- `class OptionRecordDouble : public OptionRecord`. -/
structure OptionRecordDouble extends OptionRecord where
  value : Ptr DoubleField
  lower_bound : Double
  upper_bound : Double
  default_value : Double
  deriving DecidableEq

/-- `class OptionRecordString : public OptionRecord`. -/
structure OptionRecordString extends OptionRecord where
  value : Ptr StringField
  default_value : String
  deriving DecidableEq

/-- What an `OptionRecord*` points to: an object of one of the four subclasses. -/
inductive OptionRecordRef where
  | bool (r : OptionRecordBool)
  | int (r : OptionRecordInt)
  | double (r : OptionRecordDouble)
  | string (r : OptionRecordString)
  deriving DecidableEq

/-! ## Memory -/

/-- `struct HighsOptionsStruct`: the value of every option member. -/
structure HighsOptionsStruct where
  stringField : StringField → String
  doubleField : DoubleField → Double
  intField : IntField → HighsInt
  boolField : BoolField → Bool

/-- `class HighsOptions : public HighsOptionsStruct`, with its member `records`. -/
structure HighsOptions extends HighsOptionsStruct where
  records : List OptionRecordRef

/-- The state of the program: the `HighsOptions` object at each address, and the
option records allocated with `new` so far, oldest first. -/
structure Mem where
  options : Addr → HighsOptions
  store : List OptionRecordRef

namespace Mem

/-- Reads `*p` for a `bool*`. -/
def readBool (m : Mem) (p : Ptr BoolField) : Bool := (m.options p.obj).boolField p.field

/-- Reads `*p` for a `HighsInt*`. -/
def readInt (m : Mem) (p : Ptr IntField) : HighsInt := (m.options p.obj).intField p.field

/-- Reads `*p` for a `double*`. -/
def readDouble (m : Mem) (p : Ptr DoubleField) : Double := (m.options p.obj).doubleField p.field

/-- Reads `*p` for a `std::string*`. -/
def readString (m : Mem) (p : Ptr StringField) : String := (m.options p.obj).stringField p.field

/-- The store `*p = v` for a `bool*`. -/
def writeBool (m : Mem) (p : Ptr BoolField) (v : Bool) : Mem :=
  let o := m.options p.obj
  { m with
    options := Function.update m.options p.obj { o with boolField := Function.update o.boolField p.field v } }

/-- The store `*p = v` for a `HighsInt*`. -/
def writeInt (m : Mem) (p : Ptr IntField) (v : HighsInt) : Mem :=
  let o := m.options p.obj
  { m with
    options := Function.update m.options p.obj { o with intField := Function.update o.intField p.field v } }

/-- The store `*p = v` for a `double*`. -/
def writeDouble (m : Mem) (p : Ptr DoubleField) (v : Double) : Mem :=
  let o := m.options p.obj
  { m with
    options := Function.update m.options p.obj { o with doubleField := Function.update o.doubleField p.field v } }

/-- The store `*p = v` for a `std::string*`. -/
def writeString (m : Mem) (p : Ptr StringField) (v : String) : Mem :=
  let o := m.options p.obj
  { m with
    options := Function.update m.options p.obj { o with stringField := Function.update o.stringField p.field v } }

/-- The allocation made by `new`: the record joins the store. -/
def alloc (m : Mem) (r : OptionRecordRef) : Mem :=
  { m with store := m.store ++ [r] }

/-- The call `records.push_back(r)` inside the object at `this`. -/
def push_back (m : Mem) (this : Addr) (r : OptionRecordRef) : Mem :=
  let o := m.options this
  { m with
    options := Function.update m.options this { o with records := o.records ++ [r] } }

/-- The member `records` of the object at address `a`. -/
def recordsOf (m : Mem) (a : Addr) : List OptionRecordRef := (m.options a).records

/-- The records allocated between the state `before` and the later state `after`. -/
def createdSince (before after : Mem) : List OptionRecordRef :=
  after.store.drop before.store.length

end Mem

/-! ## Constructors and `assignvalue` of the option records -/

/-- The constructor of `OptionRecordBool`, called through `new`: sets the members and
stores the default through the value pointer (`*value = default_value`). -/
def OptionRecordBool.construct (Xname Xdescription : String) (Xadvanced : Bool)
    (Xvalue_pointer : Ptr BoolField) (Xdefault_value : Bool) (m : Mem) :
    OptionRecordBool × Mem :=
  let r : OptionRecordBool :=
    { type := HighsOptionType.kBool, name := Xname, description := Xdescription,
      advanced := Xadvanced, value := Xvalue_pointer, default_value := Xdefault_value }
  (r, (m.alloc (OptionRecordRef.bool r)).writeBool r.value r.default_value)

/-- The constructor of `OptionRecordInt`, called through `new`. -/
def OptionRecordInt.construct (Xname Xdescription : String) (Xadvanced : Bool)
    (Xvalue_pointer : Ptr IntField) (Xlower_bound Xdefault_value Xupper_bound : HighsInt)
    (m : Mem) : OptionRecordInt × Mem :=
  let r : OptionRecordInt :=
    { type := HighsOptionType.kInt, name := Xname, description := Xdescription,
      advanced := Xadvanced, value := Xvalue_pointer, lower_bound := Xlower_bound,
      default_value := Xdefault_value, upper_bound := Xupper_bound }
  (r, (m.alloc (OptionRecordRef.int r)).writeInt r.value r.default_value)

/-- The constructor of `OptionRecordDouble`, called through `new`. -/
def OptionRecordDouble.construct (Xname Xdescription : String) (Xadvanced : Bool)
    (Xvalue_pointer : Ptr DoubleField) (Xlower_bound Xdefault_value Xupper_bound : Double)
    (m : Mem) : OptionRecordDouble × Mem :=
  let r : OptionRecordDouble :=
    { type := HighsOptionType.kDouble, name := Xname, description := Xdescription,
      advanced := Xadvanced, value := Xvalue_pointer, lower_bound := Xlower_bound,
      default_value := Xdefault_value, upper_bound := Xupper_bound }
  (r, (m.alloc (OptionRecordRef.double r)).writeDouble r.value r.default_value)

/-- The constructor of `OptionRecordString`, called through `new`. -/
def OptionRecordString.construct (Xname Xdescription : String) (Xadvanced : Bool)
    (Xvalue_pointer : Ptr StringField) (Xdefault_value : String) (m : Mem) :
    OptionRecordString × Mem :=
  let r : OptionRecordString :=
    { type := HighsOptionType.kString, name := Xname, description := Xdescription,
      advanced := Xadvanced, value := Xvalue_pointer, default_value := Xdefault_value }
  (r, (m.alloc (OptionRecordRef.string r)).writeString r.value r.default_value)

/-- `void OptionRecordBool::assignvalue(bool Xvalue) { *value = Xvalue; }`. -/
def OptionRecordBool.assignvalue (r : OptionRecordBool) (Xvalue : Bool) (m : Mem) : Mem :=
  m.writeBool r.value Xvalue

/-- `void OptionRecordInt::assignvalue(HighsInt Xvalue) { *value = Xvalue; }`. -/
def OptionRecordInt.assignvalue (r : OptionRecordInt) (Xvalue : HighsInt) (m : Mem) : Mem :=
  m.writeInt r.value Xvalue

/-- `void OptionRecordDouble::assignvalue(double Xvalue) { *value = Xvalue; }`. -/
def OptionRecordDouble.assignvalue (r : OptionRecordDouble) (Xvalue : Double) (m : Mem) : Mem :=
  m.writeDouble r.value Xvalue

/-- `void OptionRecordString::assignvalue(std::string Xvalue) { *value = Xvalue; }`. -/
def OptionRecordString.assignvalue (r : OptionRecordString) (Xvalue : String) (m : Mem) : Mem :=
  m.writeString r.value Xvalue

/-! ## Constants -/

/-- Modelled from the spec: `kHighsInf`, declared in `lp_data/HConst.h` (a header this
development does not cover), is plus infinity. -/
def kHighsInf : Double := Double.pinf

/-- Modelled from the spec: `kHighsIInf`, declared in `lp_data/HConst.h` (a header this
development does not cover), is the largest `HighsInt`; `HighsInt` is the 32-bit `int`
unless `HIGHSINT64` is set. -/
def kHighsIInf : HighsInt := 2147483647

/-- `std::numeric_limits<int16_t>::max()`. -/
def int16_max : HighsInt := 32767

/-- The named constants that `initRecords` uses and that are declared in headers this
development does not cover (`lp_data/HConst.h`, `simplex/SimplexConst.h`,
`simplex/HFactor.h`): their values are parameters of the model. -/
structure Consts where
  kHighsFilenameDefault : String
  kHighsChooseString : String
  kHighsDebugLevelMin : HighsInt
  kHighsDebugLevelMax : HighsInt
  kHighsAnalysisLevelMin : HighsInt
  kHighsAnalysisLevelMax : HighsInt
  kSimplexStrategyMin : HighsInt
  kSimplexStrategyDual : HighsInt
  kSimplexStrategyMax : HighsInt
  kSimplexScaleStrategyMin : HighsInt
  kSimplexScaleStrategyHighsForced : HighsInt
  kSimplexScaleStrategyMax : HighsInt
  kSimplexCrashStrategyMin : HighsInt
  kSimplexCrashStrategyOff : HighsInt
  kSimplexCrashStrategyMax : HighsInt
  kSimplexDualEdgeWeightStrategyMin : HighsInt
  kSimplexDualEdgeWeightStrategyChoose : HighsInt
  kSimplexDualEdgeWeightStrategyMax : HighsInt
  kSimplexPrimalEdgeWeightStrategyMin : HighsInt
  kSimplexPrimalEdgeWeightStrategyChoose : HighsInt
  kSimplexPrimalEdgeWeightStrategyMax : HighsInt
  kHighsThreadLimit : HighsInt
  kHighsLogDevLevelMin : HighsInt
  kHighsLogDevLevelNone : HighsInt
  kHighsLogDevLevelMax : HighsInt
  kHighsOptionOff : HighsInt
  kHighsOptionOn : HighsInt
  kSimplexPriceStrategyMin : HighsInt
  kSimplexPriceStrategyRowSwitchColSwitch : HighsInt
  kSimplexPriceStrategyMax : HighsInt
  min_pivot_threshold : Double
  default_pivot_threshold : Double
  max_pivot_threshold : Double
  min_pivot_tolerance : Double
  default_pivot_tolerance : Double
  max_pivot_tolerance : Double

/-- `const string model_file_string = "model_file";`. -/
def model_file_string : String := "model_file"

/-- `const string presolve_string = "presolve";`. -/
def presolve_string : String := "presolve"

/-- `const string solver_string = "solver";`. -/
def solver_string : String := "solver"

/-- `const string parallel_string = "parallel";`. -/
def parallel_string : String := "parallel"

/-- `const string time_limit_string = "time_limit";`. -/
def time_limit_string : String := "time_limit"

/-- `const string options_file_string = "options_file";`. -/
def options_file_string : String := "options_file"

/-- `const string log_file_string = "log_file";`. -/
def log_file_string : String := "log_file"

/-- `const HighsInt KEEP_N_ROWS_DELETE_ROWS = -1;`. -/
def KEEP_N_ROWS_DELETE_ROWS : HighsInt := -1

/-- `const HighsInt KEEP_N_ROWS_DELETE_ENTRIES = 0;`. -/
def KEEP_N_ROWS_DELETE_ENTRIES : HighsInt := 0

/-- `const HighsInt KEEP_N_ROWS_KEEP_ROWS = 1;`. -/
def KEEP_N_ROWS_KEEP_ROWS : HighsInt := 1

/-! ## `HighsOptions::initRecords` -/

set_option linter.unusedVariables false in
/-- `void HighsOptions::initRecords()`, run inside the object at address `this`:
statement by statement, each `new OptionRecord...(...)` followed (or not) by
`records.push_back(...)`.  The block under `HIGHS_DEBUGSOL` is left out; the final four
assignments to `log_file_stream` and `log_options` touch no option member and are left
out with those members. -/
def initRecords (k : Consts) (this : Addr) (m : Mem) : Mem :=
  let advanced := false
  let (record_string, m) := OptionRecordString.construct model_file_string
    "Model file"
    advanced ⟨this, StringField.model_file⟩ k.kHighsFilenameDefault m
  let m := m.push_back this (OptionRecordRef.string record_string)
  let (record_string, m) := OptionRecordString.construct presolve_string
    "Presolve option: \"off\", \"choose\" or \"on\""
    advanced ⟨this, StringField.presolve⟩ k.kHighsChooseString m
  let m := m.push_back this (OptionRecordRef.string record_string)
  let (record_string, m) := OptionRecordString.construct solver_string
    "Solver option: \"simplex\", \"choose\" or \"ipm\""
    advanced ⟨this, StringField.solver⟩ k.kHighsChooseString m
  let m := m.push_back this (OptionRecordRef.string record_string)
  let (record_string, m) := OptionRecordString.construct parallel_string
    "Parallel option: \"off\", \"choose\" or \"on\""
    advanced ⟨this, StringField.parallel⟩ k.kHighsChooseString m
  let m := m.push_back this (OptionRecordRef.string record_string)
  let (record_double, m) := OptionRecordDouble.construct time_limit_string
    "Time limit"
    advanced ⟨this, DoubleField.time_limit⟩ (Double.fin 0) kHighsInf kHighsInf m
  let m := m.push_back this (OptionRecordRef.double record_double)
  let (record_string, m) := OptionRecordString.construct options_file_string
    "Options file"
    advanced ⟨this, StringField.options_file⟩ k.kHighsFilenameDefault m
  let m := m.push_back this (OptionRecordRef.string record_string)
  let (record_double, m) := OptionRecordDouble.construct "infinite_cost"
    "Limit on cost coefficient: values larger than this will be treated as infinite"
    advanced ⟨this, DoubleField.infinite_cost⟩ (Double.fin (10 ^ 15)) (Double.fin (10 ^ 20)) kHighsInf m
  let m := m.push_back this (OptionRecordRef.double record_double)
  let (record_double, m) := OptionRecordDouble.construct "infinite_bound"
    "Limit on |constraint bound|: values larger than this will be treated as infinite"
    advanced ⟨this, DoubleField.infinite_bound⟩ (Double.fin (10 ^ 15)) (Double.fin (10 ^ 20)) kHighsInf m
  let m := m.push_back this (OptionRecordRef.double record_double)
  let (record_double, m) := OptionRecordDouble.construct "small_matrix_value"
    "Lower limit on |matrix entries|: values smaller than this will be treated as zero"
    advanced ⟨this, DoubleField.small_matrix_value⟩ (Double.fin (1 / 10 ^ 12)) (Double.fin (1 / 10 ^ 9)) kHighsInf m
  let m := m.push_back this (OptionRecordRef.double record_double)
  let (record_double, m) := OptionRecordDouble.construct "large_matrix_value"
    "Upper limit on |matrix entries|: values larger than this will be treated as infinite"
    advanced ⟨this, DoubleField.large_matrix_value⟩ (Double.fin 1) (Double.fin (10 ^ 15)) kHighsInf m
  let m := m.push_back this (OptionRecordRef.double record_double)
  let (record_double, m) := OptionRecordDouble.construct "primal_feasibility_tolerance"
    "Primal feasibility tolerance"
    advanced ⟨this, DoubleField.primal_feasibility_tolerance⟩ (Double.fin (1 / 10 ^ 10)) (Double.fin (1 / 10 ^ 7)) kHighsInf m
  let m := m.push_back this (OptionRecordRef.double record_double)
  let (record_double, m) := OptionRecordDouble.construct "dual_feasibility_tolerance"
    "Dual feasibility tolerance"
    advanced ⟨this, DoubleField.dual_feasibility_tolerance⟩ (Double.fin (1 / 10 ^ 10)) (Double.fin (1 / 10 ^ 7)) kHighsInf m
  let m := m.push_back this (OptionRecordRef.double record_double)
  let (record_double, m) := OptionRecordDouble.construct "ipm_optimality_tolerance"
    "IPM optimality tolerance"
    advanced ⟨this, DoubleField.ipm_optimality_tolerance⟩ (Double.fin (1 / 10 ^ 12)) (Double.fin (1 / 10 ^ 8)) kHighsInf m
  let m := m.push_back this (OptionRecordRef.double record_double)
  let (record_double, m) := OptionRecordDouble.construct "dual_objective_value_upper_bound"
    "Upper bound on objective value for dual simplex: algorithm terminates if reached"
    advanced ⟨this, DoubleField.dual_objective_value_upper_bound⟩ Double.ninf kHighsInf kHighsInf m
  let m := m.push_back this (OptionRecordRef.double record_double)
  let (record_int, m) := OptionRecordInt.construct "highs_random_seed"
    "random seed used in HiGHS"
    advanced ⟨this, IntField.highs_random_seed⟩ 0 0 kHighsIInf m
  let m := m.push_back this (OptionRecordRef.int record_int)
  let (record_int, m) := OptionRecordInt.construct "highs_debug_level"
    "Debugging level in HiGHS"
    advanced ⟨this, IntField.highs_debug_level⟩ k.kHighsDebugLevelMin k.kHighsDebugLevelMin k.kHighsDebugLevelMax m
  let m := m.push_back this (OptionRecordRef.int record_int)
  let (record_int, m) := OptionRecordInt.construct "highs_analysis_level"
    "Analysis level in HiGHS"
    advanced ⟨this, IntField.highs_analysis_level⟩ k.kHighsAnalysisLevelMin k.kHighsAnalysisLevelMin k.kHighsAnalysisLevelMax m
  let m := m.push_back this (OptionRecordRef.int record_int)
  let (record_int, m) := OptionRecordInt.construct "simplex_strategy"
    "Strategy for simplex solver"
    advanced ⟨this, IntField.simplex_strategy⟩ k.kSimplexStrategyMin k.kSimplexStrategyDual k.kSimplexStrategyMax m
  let m := m.push_back this (OptionRecordRef.int record_int)
  let (record_int, m) := OptionRecordInt.construct "simplex_scale_strategy"
    "Strategy for scaling before simplex solver: off / on (0/1)"
    advanced ⟨this, IntField.simplex_scale_strategy⟩ k.kSimplexScaleStrategyMin k.kSimplexScaleStrategyHighsForced k.kSimplexScaleStrategyMax m
  let m := m.push_back this (OptionRecordRef.int record_int)
  let (record_int, m) := OptionRecordInt.construct "simplex_crash_strategy"
    "Strategy for simplex crash: off / LTSSF / Bixby (0/1/2)"
    advanced ⟨this, IntField.simplex_crash_strategy⟩ k.kSimplexCrashStrategyMin k.kSimplexCrashStrategyOff k.kSimplexCrashStrategyMax m
  let m := m.push_back this (OptionRecordRef.int record_int)
  let (record_int, m) := OptionRecordInt.construct "simplex_dual_edge_weight_strategy"
    "Strategy for simplex dual edge weights: Choose / Dantzig / Devex / Steepest Edge (-1/0/1/2)"
    advanced ⟨this, IntField.simplex_dual_edge_weight_strategy⟩ k.kSimplexDualEdgeWeightStrategyMin k.kSimplexDualEdgeWeightStrategyChoose k.kSimplexDualEdgeWeightStrategyMax m
  let m := m.push_back this (OptionRecordRef.int record_int)
  let (record_int, m) := OptionRecordInt.construct "simplex_primal_edge_weight_strategy"
    "Strategy for simplex primal edge weights: Choose / Dantzig / Devex (-1/0/1)"
    advanced ⟨this, IntField.simplex_primal_edge_weight_strategy⟩ k.kSimplexPrimalEdgeWeightStrategyMin k.kSimplexPrimalEdgeWeightStrategyChoose k.kSimplexPrimalEdgeWeightStrategyMax m
  let m := m.push_back this (OptionRecordRef.int record_int)
  let (record_int, m) := OptionRecordInt.construct "simplex_iteration_limit"
    "Iteration limit for simplex solver"
    advanced ⟨this, IntField.simplex_iteration_limit⟩ 0 kHighsIInf kHighsIInf m
  let m := m.push_back this (OptionRecordRef.int record_int)
  let (record_int, m) := OptionRecordInt.construct "simplex_update_limit"
    "Limit on the number of simplex UPDATE operations"
    advanced ⟨this, IntField.simplex_update_limit⟩ 0 5000 kHighsIInf m
  let m := m.push_back this (OptionRecordRef.int record_int)
  let (record_int, m) := OptionRecordInt.construct "ipm_iteration_limit"
    "Iteration limit for IPM solver"
    advanced ⟨this, IntField.ipm_iteration_limit⟩ 0 kHighsIInf kHighsIInf m
  let m := m.push_back this (OptionRecordRef.int record_int)
  let (record_int, m) := OptionRecordInt.construct "highs_min_threads"
    "Minimum number of threads in parallel execution"
    advanced ⟨this, IntField.highs_min_threads⟩ 1 1 k.kHighsThreadLimit m
  let m := m.push_back this (OptionRecordRef.int record_int)
  let (record_int, m) := OptionRecordInt.construct "highs_max_threads"
    "Maximum number of threads in parallel execution"
    advanced ⟨this, IntField.highs_max_threads⟩ 1 k.kHighsThreadLimit k.kHighsThreadLimit m
  let m := m.push_back this (OptionRecordRef.int record_int)
  let (record_bool, m) := OptionRecordBool.construct "output_flag"
    "Enables or disables solver output"
    advanced ⟨this, BoolField.output_flag⟩ true m
  let m := m.push_back this (OptionRecordRef.bool record_bool)
  let (record_bool, m) := OptionRecordBool.construct "log_to_console"
    "Enables or disables console logging"
    advanced ⟨this, BoolField.log_to_console⟩ true m
  let m := m.push_back this (OptionRecordRef.bool record_bool)
  let (record_string, m) := OptionRecordString.construct "solution_file"
    "Solution file"
    advanced ⟨this, StringField.solution_file⟩ k.kHighsFilenameDefault m
  let m := m.push_back this (OptionRecordRef.string record_string)
  let (record_string, m) := OptionRecordString.construct log_file_string
    "Log file"
    advanced ⟨this, StringField.log_file⟩ "Highs.log" m
  let m := m.push_back this (OptionRecordRef.string record_string)
  let (record_bool, m) := OptionRecordBool.construct "write_solution_to_file"
    "Write the primal and dual solution to a file"
    advanced ⟨this, BoolField.write_solution_to_file⟩ false m
  let m := m.push_back this (OptionRecordRef.bool record_bool)
  let (record_bool, m) := OptionRecordBool.construct "write_solution_pretty"
    "Write the primal and dual solution in a pretty (human-readable) format"
    advanced ⟨this, BoolField.write_solution_pretty⟩ false m
  let m := m.push_back this (OptionRecordRef.bool record_bool)
  let (record_int, m) := OptionRecordInt.construct "mip_max_nodes"
    "MIP solver max number of nodes"
    advanced ⟨this, IntField.mip_max_nodes⟩ 0 kHighsIInf kHighsIInf m
  let m := m.push_back this (OptionRecordRef.int record_int)
  let (record_int, m) := OptionRecordInt.construct "mip_max_stall_nodes"
    "MIP solver max number of nodes where estimate is above cutoff bound"
    advanced ⟨this, IntField.mip_max_stall_nodes⟩ 0 kHighsIInf kHighsIInf m
  let m := m.push_back this (OptionRecordRef.int record_int)
  let (record_int, m) := OptionRecordInt.construct "mip_max_leaves"
    "MIP solver max number of leave nodes"
    advanced ⟨this, IntField.mip_max_leaves⟩ 0 kHighsIInf kHighsIInf m
  let m := m.push_back this (OptionRecordRef.int record_int)
  let (record_int, m) := OptionRecordInt.construct "mip_lp_age_limit"
    "maximal age of dynamic LP rows before they are removed from the LP relaxation"
    advanced ⟨this, IntField.mip_lp_age_limit⟩ 0 10 int16_max m
  let m := m.push_back this (OptionRecordRef.int record_int)
  let (record_int, m) := OptionRecordInt.construct "mip_pool_age_limit"
    "maximal age of rows in the cutpool before they are deleted"
    advanced ⟨this, IntField.mip_pool_age_limit⟩ 0 30 1000 m
  let m := m.push_back this (OptionRecordRef.int record_int)
  let (record_int, m) := OptionRecordInt.construct "mip_pool_soft_limit"
    "soft limit on the number of rows in the cutpool for dynamic age adjustment"
    advanced ⟨this, IntField.mip_pool_soft_limit⟩ 1 10000 kHighsIInf m
  let m := m.push_back this (OptionRecordRef.int record_int)
  let (record_int, m) := OptionRecordInt.construct "mip_pscost_minreliable"
    "minimal number of observations before pseudo costs are considered reliable"
    advanced ⟨this, IntField.mip_pscost_minreliable⟩ 0 8 kHighsIInf m
  let m := m.push_back this (OptionRecordRef.int record_int)
  let (record_int, m) := OptionRecordInt.construct "mip_report_level"
    "MIP solver reporting level"
    advanced ⟨this, IntField.mip_report_level⟩ 0 1 2 m
  let m := m.push_back this (OptionRecordRef.int record_int)
  let (record_double, m) := OptionRecordDouble.construct "mip_feasibility_tolerance"
    "MIP feasibility tolerance"
    advanced ⟨this, DoubleField.mip_feasibility_tolerance⟩ (Double.fin (1 / 10 ^ 10)) (Double.fin (1 / 10 ^ 6)) kHighsInf m
  let (record_double, m) := OptionRecordDouble.construct "mip_epsilon"
    "MIP epsilon tolerance"
    advanced ⟨this, DoubleField.mip_epsilon⟩ (Double.fin (1 / 10 ^ 15)) (Double.fin (1 / 10 ^ 9)) kHighsInf m
  let (record_double, m) := OptionRecordDouble.construct "mip_heuristic_effort"
    "effort spent for MIP heuristics"
    advanced ⟨this, DoubleField.mip_heuristic_effort⟩ (Double.fin 0) (Double.fin (5 / 100)) (Double.fin 1) m
  let m := m.push_back this (OptionRecordRef.double record_double)
  let advanced := true
  let (record_int, m) := OptionRecordInt.construct "log_dev_level"
    "Output development messages: 0 => none; 1 => info; 2 => verbose"
    advanced ⟨this, IntField.log_dev_level⟩ k.kHighsLogDevLevelMin k.kHighsLogDevLevelNone k.kHighsLogDevLevelMax m
  let m := m.push_back this (OptionRecordRef.int record_int)
  let (record_bool, m) := OptionRecordBool.construct "run_crossover"
    "Run the crossover routine for IPX"
    advanced ⟨this, BoolField.run_crossover⟩ true m
  let m := m.push_back this (OptionRecordRef.bool record_bool)
  let (record_bool, m) := OptionRecordBool.construct "mps_parser_type_free"
    "Use the free format MPS file reader"
    advanced ⟨this, BoolField.mps_parser_type_free⟩ true m
  let m := m.push_back this (OptionRecordRef.bool record_bool)
  let (record_int, m) := OptionRecordInt.construct "keep_n_rows"
    "For multiple N-rows in MPS files: delete rows / delete entries / keep rows (-1/0/1)"
    advanced ⟨this, IntField.keep_n_rows⟩ KEEP_N_ROWS_DELETE_ROWS KEEP_N_ROWS_DELETE_ROWS KEEP_N_ROWS_KEEP_ROWS m
  let m := m.push_back this (OptionRecordRef.int record_int)
  let (record_int, m) := OptionRecordInt.construct "allowed_simplex_matrix_scale_factor"
    "Largest power-of-two factor permitted when scaling the constraint matrix for the simplex solver"
    advanced ⟨this, IntField.allowed_simplex_matrix_scale_factor⟩ 0 10 20 m
  let m := m.push_back this (OptionRecordRef.int record_int)
  let (record_int, m) := OptionRecordInt.construct "allowed_simplex_cost_scale_factor"
    "Largest power-of-two factor permitted when scaling the costs for the simplex solver"
    advanced ⟨this, IntField.allowed_simplex_cost_scale_factor⟩ 0 0 20 m
  let m := m.push_back this (OptionRecordRef.int record_int)
  let (record_int, m) := OptionRecordInt.construct "simplex_dualise_strategy"
    "Strategy for dualising before simplex"
    advanced ⟨this, IntField.simplex_dualise_strategy⟩ k.kHighsOptionOff k.kHighsOptionOff k.kHighsOptionOn m
  let m := m.push_back this (OptionRecordRef.int record_int)
  let (record_int, m) := OptionRecordInt.construct "simplex_permute_strategy"
    "Strategy for permuting before simplex"
    advanced ⟨this, IntField.simplex_permute_strategy⟩ k.kHighsOptionOff k.kHighsOptionOff k.kHighsOptionOn m
  let m := m.push_back this (OptionRecordRef.int record_int)
  let (record_bool, m) := OptionRecordBool.construct "dual_simplex_cleanup"
    "Perform dual simplex cleanup"
    advanced ⟨this, BoolField.dual_simplex_cleanup⟩ true m
  let m := m.push_back this (OptionRecordRef.bool record_bool)
  let (record_int, m) := OptionRecordInt.construct "simplex_price_strategy"
    "Strategy for PRICE in simplex"
    advanced ⟨this, IntField.simplex_price_strategy⟩ k.kSimplexPriceStrategyMin k.kSimplexPriceStrategyRowSwitchColSwitch k.kSimplexPriceStrategyMax m
  let m := m.push_back this (OptionRecordRef.int record_int)
  let (record_bool, m) := OptionRecordBool.construct "simplex_initial_condition_check"
    "Perform initial basis condition check in simplex"
    advanced ⟨this, BoolField.simplex_initial_condition_check⟩ true m
  let m := m.push_back this (OptionRecordRef.bool record_bool)
  let (record_double, m) := OptionRecordDouble.construct "simplex_initial_condition_tolerance"
    "Tolerance on initial basis condition in simplex"
    advanced ⟨this, DoubleField.simplex_initial_condition_tolerance⟩ (Double.fin 1) (Double.fin (10 ^ 14)) kHighsInf m
  let m := m.push_back this (OptionRecordRef.double record_double)
  let (record_double, m) := OptionRecordDouble.construct "dual_steepest_edge_weight_log_error_threshold"
    "Threshold on dual steepest edge weight errors for Devex switch"
    advanced ⟨this, DoubleField.dual_steepest_edge_weight_log_error_threshold⟩ (Double.fin 1) (Double.fin (10 ^ 1)) kHighsInf m
  let m := m.push_back this (OptionRecordRef.double record_double)
  let (record_double, m) := OptionRecordDouble.construct "dual_simplex_cost_perturbation_multiplier"
    "Dual simplex cost perturbation multiplier: 0 => no perturbation"
    advanced ⟨this, DoubleField.dual_simplex_cost_perturbation_multiplier⟩ (Double.fin 0) (Double.fin 1) kHighsInf m
  let m := m.push_back this (OptionRecordRef.double record_double)
  let (record_double, m) := OptionRecordDouble.construct "primal_simplex_bound_perturbation_multiplier"
    "Primal simplex bound perturbation multiplier: 0 => no perturbation"
    advanced ⟨this, DoubleField.primal_simplex_bound_perturbation_multiplier⟩ (Double.fin 0) (Double.fin 1) kHighsInf m
  let m := m.push_back this (OptionRecordRef.double record_double)
  let (record_double, m) := OptionRecordDouble.construct "presolve_pivot_threshold"
    "Matrix factorization pivot threshold for substitutions in presolve"
    advanced ⟨this, DoubleField.presolve_pivot_threshold⟩ k.min_pivot_threshold (Double.fin (1 / 100)) k.max_pivot_threshold m
  let m := m.push_back this (OptionRecordRef.double record_double)
  let (record_int, m) := OptionRecordInt.construct "presolve_substitution_maxfillin"
    "Strategy for CHUZC sort in dual simplex"
    advanced ⟨this, IntField.presolve_substitution_maxfillin⟩ 0 10 kHighsIInf m
  let m := m.push_back this (OptionRecordRef.int record_int)
  let (record_double, m) := OptionRecordDouble.construct "factor_pivot_threshold"
    "Matrix factorization pivot threshold"
    advanced ⟨this, DoubleField.factor_pivot_threshold⟩ k.min_pivot_threshold k.default_pivot_threshold k.max_pivot_threshold m
  let m := m.push_back this (OptionRecordRef.double record_double)
  let (record_double, m) := OptionRecordDouble.construct "factor_pivot_tolerance"
    "Matrix factorization pivot tolerance"
    advanced ⟨this, DoubleField.factor_pivot_tolerance⟩ k.min_pivot_tolerance k.default_pivot_tolerance k.max_pivot_tolerance m
  let m := m.push_back this (OptionRecordRef.double record_double)
  let (record_double, m) := OptionRecordDouble.construct "start_crossover_tolerance"
    "Tolerance to be satisfied before IPM crossover will start"
    advanced ⟨this, DoubleField.start_crossover_tolerance⟩ (Double.fin (1 / 10 ^ 12)) (Double.fin (1 / 10 ^ 8)) kHighsInf m
  let m := m.push_back this (OptionRecordRef.double record_double)
  let (record_bool, m) := OptionRecordBool.construct "use_original_HFactor_logic"
    "Use original HFactor logic for sparse vs hyper-sparse TRANs"
    advanced ⟨this, BoolField.use_original_HFactor_logic⟩ true m
  let m := m.push_back this (OptionRecordRef.bool record_bool)
  let (record_bool, m) := OptionRecordBool.construct "less_infeasible_DSE_check"
    "Check whether LP is candidate for LiDSE"
    advanced ⟨this, BoolField.less_infeasible_DSE_check⟩ true m
  let m := m.push_back this (OptionRecordRef.bool record_bool)
  let (record_bool, m) := OptionRecordBool.construct "less_infeasible_DSE_choose_row"
    "Use LiDSE if LP has right properties"
    advanced ⟨this, BoolField.less_infeasible_DSE_choose_row⟩ true m
  let m := m.push_back this (OptionRecordRef.bool record_bool)
  m

/-! ## Bounds, values and targets of a record -/

/-- The test `lower_bound <= v <= upper_bound` for an integer record. -/
def OptionRecordInt.inBounds (r : OptionRecordInt) (v : HighsInt) : Bool :=
  decide (r.lower_bound ≤ v) && decide (v ≤ r.upper_bound)

/-- The test `lower_bound <= v <= upper_bound` for a real record (false for NaN). -/
def OptionRecordDouble.inBounds (r : OptionRecordDouble) (v : Double) : Bool :=
  r.lower_bound.le v && v.le r.upper_bound

/-- An option member of `HighsOptionsStruct`, of any of the four types. -/
inductive Member where
  | string (f : StringField)
  | double (f : DoubleField)
  | int (f : IntField)
  | bool (f : BoolField)
  deriving DecidableEq, Repr

/-- The value of an option, of any of the four types. -/
inductive OptionValue where
  | bool (b : Bool)
  | int (i : HighsInt)
  | double (d : Double)
  | string (s : String)
  deriving DecidableEq

/-- Reads the option member that `p` points to. -/
def Mem.read (m : Mem) (p : Ptr Member) : OptionValue :=
  match p.field with
  | Member.string f => OptionValue.string (m.readString ⟨p.obj, f⟩)
  | Member.double f => OptionValue.double (m.readDouble ⟨p.obj, f⟩)
  | Member.int f => OptionValue.int (m.readInt ⟨p.obj, f⟩)
  | Member.bool f => OptionValue.bool (m.readBool ⟨p.obj, f⟩)

namespace OptionRecordRef

/-- The member that the record's `value` pointer targets. -/
def target : OptionRecordRef → Ptr Member
  | bool r => ⟨r.value.obj, Member.bool r.value.field⟩
  | int r => ⟨r.value.obj, Member.int r.value.field⟩
  | double r => ⟨r.value.obj, Member.double r.value.field⟩
  | string r => ⟨r.value.obj, Member.string r.value.field⟩

/-- The member `default_value` of the record. -/
def defaultValue : OptionRecordRef → OptionValue
  | bool r => OptionValue.bool r.default_value
  | int r => OptionValue.int r.default_value
  | double r => OptionValue.double r.default_value
  | string r => OptionValue.string r.default_value

/-- The stored value `*value` of the record. -/
def storedValue (m : Mem) : OptionRecordRef → OptionValue
  | bool r => OptionValue.bool (m.readBool r.value)
  | int r => OptionValue.int (m.readInt r.value)
  | double r => OptionValue.double (m.readDouble r.value)
  | string r => OptionValue.string (m.readString r.value)

/-- For an integer or real record: `lower_bound <= default_value <= upper_bound`.
Records of the other two kinds declare no bounds. -/
def defaultInBounds : OptionRecordRef → Bool
  | int r => r.inBounds r.default_value
  | double r => r.inBounds r.default_value
  | _ => true

/-- For an integer or real record: `lower_bound <= *value <= upper_bound`.
Records of the other two kinds declare no bounds. -/
def storedInBounds (m : Mem) : OptionRecordRef → Bool
  | int r => r.inBounds (m.readInt r.value)
  | double r => r.inBounds (m.readDouble r.value)
  | _ => true

end OptionRecordRef

/-- The order between the named constants that bound a record of `initRecords`: each
minimum is at most the default, and the default at most the maximum. -/
def Consts.ordered (k : Consts) : Prop :=
  k.kHighsDebugLevelMin ≤ k.kHighsDebugLevelMax ∧
  k.kHighsAnalysisLevelMin ≤ k.kHighsAnalysisLevelMax ∧
  (k.kSimplexStrategyMin ≤ k.kSimplexStrategyDual ∧
    k.kSimplexStrategyDual ≤ k.kSimplexStrategyMax) ∧
  (k.kSimplexScaleStrategyMin ≤ k.kSimplexScaleStrategyHighsForced ∧
    k.kSimplexScaleStrategyHighsForced ≤ k.kSimplexScaleStrategyMax) ∧
  (k.kSimplexCrashStrategyMin ≤ k.kSimplexCrashStrategyOff ∧
    k.kSimplexCrashStrategyOff ≤ k.kSimplexCrashStrategyMax) ∧
  (k.kSimplexDualEdgeWeightStrategyMin ≤ k.kSimplexDualEdgeWeightStrategyChoose ∧
    k.kSimplexDualEdgeWeightStrategyChoose ≤ k.kSimplexDualEdgeWeightStrategyMax) ∧
  (k.kSimplexPrimalEdgeWeightStrategyMin ≤ k.kSimplexPrimalEdgeWeightStrategyChoose ∧
    k.kSimplexPrimalEdgeWeightStrategyChoose ≤ k.kSimplexPrimalEdgeWeightStrategyMax) ∧
  1 ≤ k.kHighsThreadLimit ∧
  (k.kHighsLogDevLevelMin ≤ k.kHighsLogDevLevelNone ∧
    k.kHighsLogDevLevelNone ≤ k.kHighsLogDevLevelMax) ∧
  k.kHighsOptionOff ≤ k.kHighsOptionOn ∧
  (k.kSimplexPriceStrategyMin ≤ k.kSimplexPriceStrategyRowSwitchColSwitch ∧
    k.kSimplexPriceStrategyRowSwitchColSwitch ≤ k.kSimplexPriceStrategyMax) ∧
  (k.min_pivot_threshold.le (Double.fin (1 / 100)) = true ∧
    (Double.fin (1 / 100)).le k.max_pivot_threshold = true) ∧
  (k.min_pivot_threshold.le k.default_pivot_threshold = true ∧
    k.default_pivot_threshold.le k.max_pivot_threshold = true) ∧
  (k.min_pivot_tolerance.le k.default_pivot_tolerance = true ∧
    k.default_pivot_tolerance.le k.max_pivot_tolerance = true)

/-- One assignment of the named constants, to instantiate statements about `Consts`. -/
def sampleConsts : Consts where
  kHighsFilenameDefault := ""
  kHighsChooseString := "choose"
  kHighsDebugLevelMin := 0
  kHighsDebugLevelMax := 3
  kHighsAnalysisLevelMin := 0
  kHighsAnalysisLevelMax := 63
  kSimplexStrategyMin := 0
  kSimplexStrategyDual := 1
  kSimplexStrategyMax := 4
  kSimplexScaleStrategyMin := 0
  kSimplexScaleStrategyHighsForced := 2
  kSimplexScaleStrategyMax := 5
  kSimplexCrashStrategyMin := 0
  kSimplexCrashStrategyOff := 0
  kSimplexCrashStrategyMax := 9
  kSimplexDualEdgeWeightStrategyMin := -1
  kSimplexDualEdgeWeightStrategyChoose := -1
  kSimplexDualEdgeWeightStrategyMax := 2
  kSimplexPrimalEdgeWeightStrategyMin := -1
  kSimplexPrimalEdgeWeightStrategyChoose := -1
  kSimplexPrimalEdgeWeightStrategyMax := 1
  kHighsThreadLimit := 8
  kHighsLogDevLevelMin := 0
  kHighsLogDevLevelNone := 0
  kHighsLogDevLevelMax := 3
  kHighsOptionOff := -1
  kHighsOptionOn := 1
  kSimplexPriceStrategyMin := 0
  kSimplexPriceStrategyRowSwitchColSwitch := 3
  kSimplexPriceStrategyMax := 3
  min_pivot_threshold := Double.fin (8 / 10000)
  default_pivot_threshold := Double.fin (1 / 10)
  max_pivot_threshold := Double.fin (1 / 2)
  min_pivot_tolerance := Double.fin 0
  default_pivot_tolerance := Double.fin (1 / 10 ^ 10)
  max_pivot_tolerance := Double.fin 1

/-- A memory to instantiate statements about `Mem`: every numeric member is zero, every
flag false, every string empty, no record exists. -/
def sampleMem : Mem where
  options := fun _ =>
    { stringField := fun _ => "", doubleField := fun _ => Double.fin 0, intField := fun _ => 0,
      boolField := fun _ => false, records := [] }
  store := []

/-! ## Setting and reading an option through its record

`setLocalOptionValue` and `getLocalOptionValue` are declared in `HighsOptions.h`; their
bodies are in `HighsOptions.cpp`, which this development does not cover. -/

/-- Modelled from the spec: `OptionStatus setLocalOptionValue(OptionRecordBool& option,
const bool value)`.  A flag declares no bounds: the value is stored through
`assignvalue` and the outcome is `kOk`. -/
def OptionRecordBool.setLocalOptionValue (option : OptionRecordBool) (value : Bool)
    (m : Mem) : OptionStatus × Mem :=
  (OptionStatus.kOk, option.assignvalue value m)

/-- Modelled from the spec: `OptionStatus setLocalOptionValue(const HighsLogOptions&,
OptionRecordInt& option, const HighsInt value)`.  "Setting a value within bounds and
reading it back yields the same value; setting a value outside declared bounds leaves the
stored value unchanged and reports an illegal-value outcome." -/
def OptionRecordInt.setLocalOptionValue (option : OptionRecordInt) (value : HighsInt)
    (m : Mem) : OptionStatus × Mem :=
  if option.inBounds value then (OptionStatus.kOk, option.assignvalue value m)
  else (OptionStatus.kIllegalValue, m)

/-- Modelled from the spec: `OptionStatus setLocalOptionValue(const HighsLogOptions&,
OptionRecordDouble& option, const double value)`, with the same rule as for an integer
record. -/
def OptionRecordDouble.setLocalOptionValue (option : OptionRecordDouble) (value : Double)
    (m : Mem) : OptionStatus × Mem :=
  if option.inBounds value then (OptionStatus.kOk, option.assignvalue value m)
  else (OptionStatus.kIllegalValue, m)

/-- Modelled from the spec: `OptionStatus setLocalOptionValue(const HighsLogOptions&,
OptionRecordString& option, std::string const value)`.  The spec names no restriction on
the value of a string option: the value is stored through `assignvalue` and the outcome
is `kOk`. -/
def OptionRecordString.setLocalOptionValue (option : OptionRecordString) (value : String)
    (m : Mem) : OptionStatus × Mem :=
  (OptionStatus.kOk, option.assignvalue value m)

/-- Modelled from the spec: the value that `getLocalOptionValue` hands back for a flag
once the record is found: the target of the record's value pointer. -/
def OptionRecordBool.getLocalOptionValue (option : OptionRecordBool) (m : Mem) : Bool :=
  m.readBool option.value

/-- Modelled from the spec: the value that `getLocalOptionValue` hands back for an integer
option once the record is found: the target of the record's value pointer. -/
def OptionRecordInt.getLocalOptionValue (option : OptionRecordInt) (m : Mem) : HighsInt :=
  m.readInt option.value

/-- Modelled from the spec: the value that `getLocalOptionValue` hands back for a real
option once the record is found: the target of the record's value pointer. -/
def OptionRecordDouble.getLocalOptionValue (option : OptionRecordDouble) (m : Mem) : Double :=
  m.readDouble option.value

/-- Modelled from the spec: the value that `getLocalOptionValue` hands back for a string
option once the record is found: the target of the record's value pointer. -/
def OptionRecordString.getLocalOptionValue (option : OptionRecordString) (m : Mem) : String :=
  m.readString option.value

/-- The record that `initRecords` creates for `allowed_simplex_matrix_scale_factor`
(bounds 0 and 20, default 10) inside an object at address 0. -/
def sampleIntRecord : OptionRecordInt :=
  (OptionRecordInt.construct "allowed_simplex_matrix_scale_factor"
    "Largest power-of-two factor permitted when scaling the constraint matrix for the simplex solver"
    true ⟨0, IntField.allowed_simplex_matrix_scale_factor⟩ 0 10 20 sampleMem).1

/-- The record that `initRecords` creates for `mip_heuristic_effort`
(bounds 0 and 1, default 0.05) inside an object at address 0. -/
def sampleDoubleRecord : OptionRecordDouble :=
  (OptionRecordDouble.construct "mip_heuristic_effort" "effort spent for MIP heuristics"
    false ⟨0, DoubleField.mip_heuristic_effort⟩ (Double.fin 0) (Double.fin (5 / 100))
    (Double.fin 1) sampleMem).1

/-! ## Models: `HighsLp`, `HighsHessian`, `HighsModel` -/

/-- `ObjSense` (declared in `lp_data/HConst.h`). -/
inductive ObjSense where
  | kMinimize
  | kMaximize
  deriving DecidableEq, Repr

/-- `MatrixOrientation` (declared in `lp_data/HConst.h`). -/
inductive MatrixOrientation where
  | kNone
  | kColwise
  | kRowwise
  deriving DecidableEq, Repr

/-- `HighsHessian`, with the members that the test fills: the dimension and the
column-wise storage of the entries.  Entries are finite and kept as exact rationals. -/
structure HighsHessian where
  dim_ : Nat
  q_start_ : List Nat
  q_index_ : List Nat
  q_value_ : List ℚ

/-- `HighsLp`, with the members that the test fills.  Costs, the offset and matrix
entries are finite and kept as exact rationals; bounds may be infinite. -/
structure HighsLp where
  model_name_ : String
  numCol_ : Nat
  numRow_ : Nat
  colCost_ : List ℚ
  colLower_ : List Double
  colUpper_ : List Double
  rowLower_ : List Double
  rowUpper_ : List Double
  Astart_ : List Nat
  Aindex_ : List Nat
  Avalue_ : List ℚ
  orientation_ : MatrixOrientation
  sense_ : ObjSense
  offset_ : ℚ

/-- `HighsModel`: an LP and a Hessian. -/
structure HighsModel where
  lp_ : HighsLp
  hessian_ : HighsHessian

/-- The entries stored for column `j` of the Hessian, as pairs of row index and value:
the positions `q_start_[j]`, ..., `q_start_[j+1] - 1` of `q_index_` and `q_value_`. -/
def HighsHessian.column (h : HighsHessian) (j : Nat) : List (Nat × ℚ) :=
  (List.range (h.q_start_.getD (j + 1) 0 - h.q_start_.getD j 0)).map fun t =>
    (h.q_index_.getD (h.q_start_.getD j 0 + t) 0, h.q_value_.getD (h.q_start_.getD j 0 + t) 0)

/-- The quadratic form `x^T Q x` of the stored Hessian at the column values `x`. -/
def HighsHessian.quadraticForm {K : Type} [Field K] (h : HighsHessian) (x : List K) : K :=
  ((List.range h.dim_).map fun j =>
    ((h.column j).map fun e => x.getD e.1 0 * (e.2 : K) * x.getD j 0).sum).sum

/-- The objective of a model at the column values `x`:
`offset + c.x + (1/2) x^T Q x`. -/
def HighsModel.objective {K : Type} [Field K] (model : HighsModel) (x : List K) : K :=
  (model.lp_.offset_ : K)
    + ((List.range model.lp_.numCol_).map fun j =>
        (model.lp_.colCost_.getD j 0 : K) * x.getD j 0).sum
    + (1 / 2) * model.hessian_.quadraticForm x

/-! ## `check/TestQpSolver.cpp` -/

/-- `const double double_equal_tolerance = 1e-5;`. -/
def double_equal_tolerance : ℚ := 1 / 10 ^ 5

/-- `const double required_objective_function_value = -5.25;` in `test-qo1`. -/
def required_objective_function_value : ℚ := -525 / 100

/-- `const bool uncon = true;` in `test-qo1`. -/
def uncon : Bool := true

/-- The model that `test-qo1` builds, as a function of the switch `uncon`. -/
def qo1_model (uncon : Bool) : HighsModel where
  lp_ :=
    { model_name_ := "qjh"
      numCol_ := 3
      numRow_ := if uncon then 0 else 1
      colCost_ := [0, -1, -3]
      colLower_ :=
        if uncon then [Double.ninf, Double.ninf, Double.ninf]
        else [Double.fin 0, Double.fin 0, Double.fin 0]
      colUpper_ := [kHighsInf, kHighsInf, kHighsInf]
      rowLower_ := if !uncon then [Double.fin 1] else []
      rowUpper_ := if !uncon then [kHighsInf] else []
      Astart_ := if !uncon then [0, 1, 1, 2] else []
      Aindex_ := if !uncon then [0, 0] else []
      Avalue_ := if !uncon then [1, 1] else []
      orientation_ := if !uncon then MatrixOrientation.kColwise else MatrixOrientation.kNone
      sense_ := ObjSense.kMinimize
      offset_ := 0 }
  hessian_ :=
    { dim_ := 3
      q_start_ := [0, 2, 3, 5]
      q_index_ := [0, 2, 1, 0, 2]
      q_value_ := [2, -1, 2 / 10, -1, 2] }

/-- The objective in the comment that opens `test-qo1`:
`-x_2 - 3x_3 + (1/2)(2x_1^2 - 2x_1x_3 + 0.2x_2^2 + 2x_3^2)`. -/
def qo1_documented_objective {K : Type} [Field K] (x1 x2 x3 : K) : K :=
  -x2 - 3 * x3 + (1 / 2) * (2 * x1 ^ 2 - 2 * x1 * x3 + (2 / 10) * x2 ^ 2 + 2 * x3 ^ 2)

/-- The constraints in the comment that opens `test-qo1`: `x_1 + x_3 <= 2; x>=0`. -/
def qo1_documented_feasible {K : Type} [LinearOrderedField K] (x1 x2 x3 : K) : Prop :=
  x1 + x3 ≤ 2 ∧ 0 ≤ x1 ∧ 0 ≤ x2 ∧ 0 ≤ x3

/-- The objective value that the test case `qpsolver` requires: `fabs(objval + 6.45)`. -/
def qpsolver_required_objective : ℚ := -645 / 100

/-- The column values that the test case `qpsolver` requires: 1.4 and 1.7. -/
def qpsolver_required_col_value : List ℚ := [14 / 10, 17 / 10]

/-- Modelled from the spec: the model of the LP scenario, "a two-variable bounded LP with
objective coefficients (0, -1) minimized over columns with bounds [0,∞) and one
constraint".  The instance file that the test case `qpsolver` reads is not covered.  The
spec does not give the constraint, which plays no part in the value of the objective at a
point; the model has no row and no quadratic term. -/
def lp_scenario_model : HighsModel where
  lp_ :=
    { model_name_ := ""
      numCol_ := 2
      numRow_ := 0
      colCost_ := [0, -1]
      colLower_ := [Double.fin 0, Double.fin 0]
      colUpper_ := [Double.pinf, Double.pinf]
      rowLower_ := []
      rowUpper_ := []
      Astart_ := []
      Aindex_ := []
      Avalue_ := []
      orientation_ := MatrixOrientation.kNone
      sense_ := ObjSense.kMinimize
      offset_ := 0 }
  hessian_ := { dim_ := 0, q_start_ := [], q_index_ := [], q_value_ := [] }

/-! ## The list `records` -/

/-- The records pushed on `records` of the object at `this` between the state `before`
and the later state `after`. -/
def Mem.pushedSince (before after : Mem) (this : Addr) : List OptionRecordRef :=
  (after.recordsOf this).drop (before.recordsOf this).length

namespace OptionRecordRef

/-- The `OptionRecord` part of the record, as seen through an `OptionRecord*`. -/
def base : OptionRecordRef → OptionRecord
  | bool r => r.toOptionRecord
  | int r => r.toOptionRecord
  | double r => r.toOptionRecord
  | string r => r.toOptionRecord

/-- The member `name` of the record. -/
def name (r : OptionRecordRef) : String := r.base.name

/-- The member `type` of the record: its tag. -/
def type (r : OptionRecordRef) : HighsOptionType := r.base.type

/-- The tag that stands for the concrete class of the record. -/
def kind : OptionRecordRef → HighsOptionType
  | bool _ => HighsOptionType.kBool
  | int _ => HighsOptionType.kInt
  | double _ => HighsOptionType.kDouble
  | string _ => HighsOptionType.kString

end OptionRecordRef

deriving instance Fintype for StringField

deriving instance Fintype for DoubleField

deriving instance Fintype for IntField

deriving instance Fintype for BoolField

deriving instance Fintype for Member

/-- The name of the multiplier option for the perturbation of `what` (the cost or the
bound) in the simplex variant `algorithm` (primal or dual), in the way the two
perturbation members of `HighsOptionsStruct` are named. -/
def perturbation_multiplier_name (algorithm what : String) : String :=
  algorithm ++ "_simplex_" ++ what ++ "_perturbation_multiplier"

/-! ## The Hessian as a matrix, feasible points and definitive outcomes -/

/-- The stored Hessian is well formed: `q_start_` has `dim_ + 1` entries, starts at 0, is
non-decreasing and ends at the number of stored entries; there are as many values as
indices; every index is below `dim_`. -/
def HighsHessian.wellFormed (h : HighsHessian) : Bool :=
  decide (h.q_start_.length = h.dim_ + 1) &&
  decide (h.q_start_.head? = some 0) &&
  decide (List.Chain' (fun a b => a ≤ b) h.q_start_) &&
  decide (h.q_start_.getLast? = some h.q_index_.length) &&
  decide (h.q_value_.length = h.q_index_.length) &&
  h.q_index_.all (fun i => decide (i < h.dim_))

/-- The entry of the Hessian in row `i` and column `j`: the sum of the values stored for
column `j` under the index `i`. -/
def HighsHessian.entry (h : HighsHessian) (i j : Nat) : ℚ :=
  (((h.column j).filter (fun e => decide (e.1 = i))).map (fun e => e.2)).sum

/-- The Hessian is symmetric. -/
def HighsHessian.symmetric (h : HighsHessian) : Prop :=
  ∀ i < h.dim_, ∀ j < h.dim_, h.entry i j = h.entry j i

/-- The comparison `bound <= x` of a bound with a value (false for a NaN bound). -/
def Double.leValue {K : Type} [LinearOrderedField K] : Double → K → Prop
  | Double.nan, _ => False
  | Double.ninf, _ => True
  | Double.fin q, x => (q : K) ≤ x
  | Double.pinf, _ => False

/-- The comparison `x <= bound` of a value with a bound (false for a NaN bound). -/
def Double.valueLe {K : Type} [LinearOrderedField K] (x : K) : Double → Prop
  | Double.nan => False
  | Double.ninf => False
  | Double.fin q => x ≤ (q : K)
  | Double.pinf => True

/-- The entries stored for column `j` of the constraint matrix, held column-wise, as pairs
of row index and value. -/
def HighsLp.column (lp : HighsLp) (j : Nat) : List (Nat × ℚ) :=
  (List.range (lp.Astart_.getD (j + 1) 0 - lp.Astart_.getD j 0)).map fun t =>
    (lp.Aindex_.getD (lp.Astart_.getD j 0 + t) 0, lp.Avalue_.getD (lp.Astart_.getD j 0 + t) 0)

/-- The activity of row `i` at the column values `x`, for a matrix held column-wise. -/
def HighsLp.rowActivity {K : Type} [Field K] (lp : HighsLp) (x : List K) (i : Nat) : K :=
  ((List.range lp.numCol_).map fun j =>
    (((lp.column j).filter (fun e => decide (e.1 = i))).map fun e =>
      (e.2 : K) * x.getD j 0).sum).sum

/-- Modelled from the spec: a point is feasible for a model when it has one value for each
column, every column value lies within the bounds of its column and every row activity
within the bounds of its row ("primal values satisfy all bounds"). -/
def HighsModel.feasible {K : Type} [LinearOrderedField K] (model : HighsModel)
    (x : List K) : Prop :=
  x.length = model.lp_.numCol_ ∧
  (∀ j < model.lp_.numCol_,
    (model.lp_.colLower_.getD j Double.nan).leValue (x.getD j 0) ∧
    Double.valueLe (x.getD j 0) (model.lp_.colUpper_.getD j Double.nan)) ∧
  (∀ i < model.lp_.numRow_,
    (model.lp_.rowLower_.getD i Double.nan).leValue (model.lp_.rowActivity x i) ∧
    Double.valueLe (model.lp_.rowActivity x i) (model.lp_.rowUpper_.getD i Double.nan))

/-- The point `x` is at least as good as `y` for the objective sense of the model. -/
def HighsModel.noWorse {K : Type} [LinearOrderedField K] (model : HighsModel)
    (x y : List K) : Prop :=
  match model.lp_.sense_ with
  | ObjSense.kMinimize => model.objective x ≤ model.objective y
  | ObjSense.kMaximize => model.objective y ≤ model.objective x

/-- Modelled from the spec: the definitive outcomes of a solve, "optimal" and the two
certified outcomes "infeasible" and "unbounded". -/
inductive DefinitiveStatus where
  | optimal
  | infeasible
  | unbounded
  deriving DecidableEq, Repr

/-- The objective at `y` is beyond the level `level` in the direction of the objective
sense of the model: below it when minimising, above it when maximising. -/
def HighsModel.beyond (model : HighsModel) (y : List ℝ) (level : ℝ) : Prop :=
  match model.lp_.sense_ with
  | ObjSense.kMinimize => model.objective y < level
  | ObjSense.kMaximize => level < model.objective y

/-- Modelled from the spec: what each definitive outcome says of a model, over the reals.
Optimal: some feasible point is at least as good as every feasible point.  Infeasible: no
point is feasible.  Unbounded: there is a feasible point, and feasible points reach
beyond every level of the objective. -/
def HighsModel.admits (model : HighsModel) : DefinitiveStatus → Prop
  | DefinitiveStatus.optimal =>
      ∃ x : List ℝ, model.feasible x ∧ ∀ y : List ℝ, model.feasible y → model.noWorse x y
  | DefinitiveStatus.infeasible => ¬ ∃ x : List ℝ, model.feasible x
  | DefinitiveStatus.unbounded =>
      (∃ x : List ℝ, model.feasible x) ∧
      ∀ level : ℝ, ∃ y : List ℝ, model.feasible y ∧ model.beyond y level

/-! ## Constructors and assignment of `HighsOptions` -/

namespace Mem

/-- The members of the `HighsOptions` object at `this` when the body of one of its
constructors starts: `records` and the strings are empty (their own default
constructors); the numeric members and the flags are not initialised and keep whatever
the memory held. -/
def defaultInit (m : Mem) (this : Addr) : Mem :=
  let o := m.options this
  { m with
    options := Function.update m.options this { o with stringField := fun _ => "", records := [] } }

/-- The call `HighsOptionsStruct::operator=(other)` inside the object at `this`: the
implicit assignment of the struct copies every member from the object at `other`. -/
def assignStruct (m : Mem) (this other : Addr) : Mem :=
  let o := m.options this
  { m with
    options := Function.update m.options this
      { o with toHighsOptionsStruct := (m.options other).toHighsOptionsStruct } }

/-- The statement `records = std::move(options.records)` inside the object at `this`: the
object takes over the list of the object at `options`, which is left empty (as the
implementations of `std::vector` leave a vector they moved from; the test
`records.size() == 0` of the assignment operators relies on it). -/
def moveRecords (m : Mem) (this options : Addr) : Mem :=
  let l := (m.options options).records
  let src := m.options options
  let m1 : Mem := { m with options := Function.update m.options options { src with records := [] } }
  let dst := m1.options this
  { m1 with options := Function.update m1.options this { dst with records := l } }

end Mem

/-- The member function `void setLogOptions();` is declared in `HighsOptions` and defined in
`HighsOptions.cpp`, which this development does not cover: it is a parameter of the
constructors and assignments below.  It keeps the options when a call changes no option
member and no list of records, that is, nothing that `Mem` holds. -/
def KeepsOptions (setLogOptions : Addr → Mem → Mem) : Prop :=
  ∀ (this : Addr) (m : Mem), setLogOptions this m = m

namespace HighsOptions

/-- `HighsOptions() { initRecords(); setLogOptions(); }`, for the object at `this`. -/
def construct (k : Consts) (setLogOptions : Addr → Mem → Mem) (this : Addr) (m : Mem) : Mem :=
  let m := m.defaultInit this
  let m := initRecords k this m
  setLogOptions this m

/-- `HighsOptions(const HighsOptions& options)`, for the object at `this`:
`initRecords(); HighsOptionsStruct::operator=(options); setLogOptions();`. -/
def construct_copy (k : Consts) (setLogOptions : Addr → Mem → Mem) (this options : Addr)
    (m : Mem) : Mem :=
  let m := m.defaultInit this
  let m := initRecords k this m
  let m := m.assignStruct this options
  setLogOptions this m

/-- `HighsOptions(HighsOptions&& options)`, for the object at `this`:
`records = std::move(options.records); HighsOptionsStruct::operator=(std::move(options));
setLogOptions();`.  The struct has a user-declared destructor and so no move assignment:
its members are copied. -/
def construct_move (setLogOptions : Addr → Mem → Mem) (this options : Addr) (m : Mem) : Mem :=
  let m := m.defaultInit this
  let m := m.moveRecords this options
  let m := m.assignStruct this options
  setLogOptions this m

/-- `const HighsOptions& operator=(const HighsOptions& other)`, for the object at `this`:
`if (&other != this) { if ((HighsInt)records.size() == 0) initRecords();
HighsOptionsStruct::operator=(other); setLogOptions(); } return *this;`. -/
def assign (k : Consts) (setLogOptions : Addr → Mem → Mem) (this other : Addr) (m : Mem) : Mem :=
  if other ≠ this then
    let m := if (m.recordsOf this).length = 0 then initRecords k this m else m
    let m := m.assignStruct this other
    setLogOptions this m
  else m

/-- `const HighsOptions& operator=(HighsOptions&& other)`, for the object at `this`: the
same statements as the copy assignment (`other` is an lvalue inside the body, so the
struct is copied). -/
def assign_move (k : Consts) (setLogOptions : Addr → Mem → Mem) (this other : Addr)
    (m : Mem) : Mem :=
  if other ≠ this then
    let m := if (m.recordsOf this).length = 0 then initRecords k this m else m
    let m := m.assignStruct this other
    setLogOptions this m
  else m

end HighsOptions

/-- The `setLogOptions` that changes nothing that `Mem` holds. -/
def sampleSetLogOptions (_this : Addr) (m : Mem) : Mem := m

/-! ## `class Highs` -/

/-- `HighsStatus` (declared in `lp_data/HighsStatus.h`): `OK`, the one enumerator that
`Highs.h` names, and `notOK` for every other one. -/
inductive HighsStatus where
  | OK
  | notOK
  deriving DecidableEq, Repr

/-- The data members of `class Highs`.  The classes `HighsSolution`, `HighsBasis_new`,
`HighsModelObject` and `HighsTimer` are declared in headers this development does not
cover and are parameters; `options_` is the address of the `HighsOptions` member. -/
structure Highs (HighsSolution HighsBasis_new HighsModelObject HighsTimer : Type) where
  options_ : Addr
  solution_ : HighsSolution
  basis_ : HighsBasis_new
  lp_ : HighsLp
  hmos_ : List HighsModelObject
  timer_ : HighsTimer
  simplex_has_run_ : Bool

namespace Highs

/-- `Highs(HighsOptions& options) { options_ = options; }`, as far as options go: the
member `options_` is default-constructed, then assigned from `options`. -/
def construct_options (k : Consts) (setLogOptions : Addr → Mem → Mem) (options_ options : Addr)
    (m : Mem) : Mem :=
  HighsOptions.assign k setLogOptions options_ options
    (HighsOptions.construct k setLogOptions options_ m)

/-- `HighsStatus setBasis(const HighsBasis_new& basis) { basis_ = basis;
return HighsStatus::OK; }`. -/
def setBasis {HighsSolution HighsBasis_new HighsModelObject HighsTimer : Type}
    (self : Highs HighsSolution HighsBasis_new HighsModelObject HighsTimer)
    (basis : HighsBasis_new) (m : Mem) :
    HighsStatus × Highs HighsSolution HighsBasis_new HighsModelObject HighsTimer × Mem :=
  (HighsStatus.OK, { self with basis_ := basis }, m)

end Highs

/-- A `HighsOptions` object default-constructed at address 0 from `sampleMem`. -/
def sampleConstructed : Mem :=
  HighsOptions.construct sampleConsts sampleSetLogOptions 0 sampleMem

/-- A second `HighsOptions` object, at address 1, move-constructed from the object at
address 0 of `sampleConstructed`: `HighsOptions b(std::move(a));`. -/
def sampleMoved : Mem :=
  HighsOptions.construct_move sampleSetLogOptions 1 0 sampleConstructed

/-! ## The assertions of `test-qo1` -/

/-- `HighsStatus::kOk`: the test, of a later revision than `Highs.h`, writes `kOk` for the
enumerator that `Highs.h` writes `OK`. -/
def HighsStatus.kOk : HighsStatus := HighsStatus.OK

/-- What the calls that `test-qo1` makes on its `Highs` object hand back.  The bodies of
`passModel`, `run`, `readModel` and `getInfo` are not covered; their results are
parameters: the status of `passModel` and of the first `run`, and, inside the loop, the
status of `readModel` for a file name and the status of `run` and the objective function
value for a value of `test_k`. -/
structure Qo1Calls where
  passModel : HighsStatus
  run : HighsStatus
  objective_function_value : ℚ
  readModel_in_loop : String → HighsStatus
  run_in_loop : HighsInt → HighsStatus
  objective_function_value_in_loop : HighsInt → ℚ

/-- A `REQUIRE` that the test executes, with the line it stands on and the values it
compares: `REQUIRE(return_status == HighsStatus::kOk)`, or
`REQUIRE(fabs(objective_function_value - required_objective_function_value) <
double_equal_tolerance)`. -/
inductive Requirement where
  | status_is_kOk (line : Nat) (return_status : HighsStatus)
  | objective_is_required_value (line : Nat) (objective_function_value : ℚ)
  deriving DecidableEq

namespace Requirement

/-- Whether the condition of the `REQUIRE` holds. -/
def holds : Requirement → Bool
  | status_is_kOk _ return_status => decide (return_status = HighsStatus.kOk)
  | objective_is_required_value _ objective_function_value =>
      decide (|objective_function_value - required_objective_function_value|
        < double_equal_tolerance)

/-- A `REQUIRE` followed by the rest of the test: the assertion is executed, and the rest
runs only if its condition holds (a failed `REQUIRE` ends the test case). -/
def andThen (r : Requirement) (rest : List Requirement) : List Requirement :=
  r :: (if r.holds then rest else [])

/-- The requirement compares an objective value with
`required_objective_function_value`. -/
def comparesObjective : Requirement → Bool
  | status_is_kOk _ _ => false
  | objective_is_required_value _ _ => true

end Requirement

/-- The file that the loop of `test-qo1` reads for a value of `test_k`, after
`HIGHS_DIR`. -/
def qo1_filename (test_k : HighsInt) : String :=
  if test_k = 0 then "/check/instances/qjh.mps"
  else if test_k = 1 then "/check/instances/qjh_quadobj.mps"
  else "/check/instances/qjh_qmatrix.mps"

/-- The loop `for (HighsInt test_k = ...; test_k < 2; test_k++) { ... }` of `test-qo1`,
entered with the value `test_k`: the assertions it executes, in order (lines 99 to 106 for
each pass through the body). -/
def qo1_loop (calls : Qo1Calls) (test_k : HighsInt) : List Requirement :=
  if h : test_k < 2 then
    (Requirement.status_is_kOk 100 (calls.readModel_in_loop (qo1_filename test_k))).andThen
      ((Requirement.status_is_kOk 102 (calls.run_in_loop test_k)).andThen
        ((Requirement.objective_is_required_value 104
            (calls.objective_function_value_in_loop test_k)).andThen
          (qo1_loop calls (test_k + 1))))
  else []
termination_by (2 - test_k).toNat
decreasing_by
  have h2 : (2 - (test_k + 1)) < (2 - test_k) := Int.sub_lt_sub_left (Int.lt_succ test_k) 2
  have h3 : 0 < 2 - test_k := Int.sub_pos_of_lt h
  exact (Int.toNat_lt_toNat h3).mpr h2

/-- The assertions that `TEST_CASE("test-qo1")` executes, in order: the `REQUIRE` on
`passModel` (line 76), the one on `run` (line 79), then the loop entered with
`test_k = 3`.  The `REQUIRE` of lines 81 and 82 is commented out; `writeModel`, `printf`,
`writeSolution` and `clearModel` assert nothing. -/
def test_qo1 (calls : Qo1Calls) : List Requirement :=
  (Requirement.status_is_kOk 76 calls.passModel).andThen
    ((Requirement.status_is_kOk 79 calls.run).andThen
      (qo1_loop calls 3))

/-- Calls that all succeed: the first `run` hands back the objective value `-11 / 2`, the
runs inside the loop the required value. -/
def sampleQo1Calls : Qo1Calls where
  passModel := HighsStatus.kOk
  run := HighsStatus.kOk
  objective_function_value := -11 / 2
  readModel_in_loop := fun _ => HighsStatus.kOk
  run_in_loop := fun _ => HighsStatus.kOk
  objective_function_value_in_loop := fun _ => required_objective_function_value

/-! # Theorems -/

/-! ## Reading memory after an operation -/

namespace Mem

theorem readBool_writeBool (m : Mem) (p q : Ptr BoolField) (v : Bool) :
    (m.writeBool p v).readBool q = if q = p then v else m.readBool q := by
  obtain ⟨a, f⟩ := p
  obtain ⟨b, g⟩ := q
  by_cases hab : b = a
  · subst hab
    by_cases hfg : g = f
    · subst hfg; simp [readBool, writeBool]
    · simp [readBool, writeBool, hfg]
  · simp [readBool, writeBool, hab]

theorem readBool_writeInt (m : Mem) (p : Ptr IntField) (q : Ptr BoolField) (v : HighsInt) :
    (m.writeInt p v).readBool q = m.readBool q := by
  by_cases h : q.obj = p.obj
  · simp [readBool, writeInt, h]
  · simp [readBool, writeInt, h]

theorem readBool_writeDouble (m : Mem) (p : Ptr DoubleField) (q : Ptr BoolField) (v : Double) :
    (m.writeDouble p v).readBool q = m.readBool q := by
  by_cases h : q.obj = p.obj
  · simp [readBool, writeDouble, h]
  · simp [readBool, writeDouble, h]

theorem readBool_writeString (m : Mem) (p : Ptr StringField) (q : Ptr BoolField) (v : String) :
    (m.writeString p v).readBool q = m.readBool q := by
  by_cases h : q.obj = p.obj
  · simp [readBool, writeString, h]
  · simp [readBool, writeString, h]

theorem readBool_alloc (m : Mem) (r : OptionRecordRef) (q : Ptr BoolField) :
    (m.alloc r).readBool q = m.readBool q := by
  simp [readBool, alloc]

theorem readBool_push_back (m : Mem) (this : Addr) (r : OptionRecordRef)
    (q : Ptr BoolField) : (m.push_back this r).readBool q = m.readBool q := by
  by_cases h : q.obj = this
  · simp [readBool, push_back, h]
  · simp [readBool, push_back, h]

theorem readInt_writeInt (m : Mem) (p q : Ptr IntField) (v : HighsInt) :
    (m.writeInt p v).readInt q = if q = p then v else m.readInt q := by
  obtain ⟨a, f⟩ := p
  obtain ⟨b, g⟩ := q
  by_cases hab : b = a
  · subst hab
    by_cases hfg : g = f
    · subst hfg; simp [readInt, writeInt]
    · simp [readInt, writeInt, hfg]
  · simp [readInt, writeInt, hab]

theorem readInt_writeBool (m : Mem) (p : Ptr BoolField) (q : Ptr IntField) (v : Bool) :
    (m.writeBool p v).readInt q = m.readInt q := by
  by_cases h : q.obj = p.obj
  · simp [readInt, writeBool, h]
  · simp [readInt, writeBool, h]

theorem readInt_writeDouble (m : Mem) (p : Ptr DoubleField) (q : Ptr IntField) (v : Double) :
    (m.writeDouble p v).readInt q = m.readInt q := by
  by_cases h : q.obj = p.obj
  · simp [readInt, writeDouble, h]
  · simp [readInt, writeDouble, h]

theorem readInt_writeString (m : Mem) (p : Ptr StringField) (q : Ptr IntField) (v : String) :
    (m.writeString p v).readInt q = m.readInt q := by
  by_cases h : q.obj = p.obj
  · simp [readInt, writeString, h]
  · simp [readInt, writeString, h]

theorem readInt_alloc (m : Mem) (r : OptionRecordRef) (q : Ptr IntField) :
    (m.alloc r).readInt q = m.readInt q := by
  simp [readInt, alloc]

theorem readInt_push_back (m : Mem) (this : Addr) (r : OptionRecordRef)
    (q : Ptr IntField) : (m.push_back this r).readInt q = m.readInt q := by
  by_cases h : q.obj = this
  · simp [readInt, push_back, h]
  · simp [readInt, push_back, h]

theorem readDouble_writeDouble (m : Mem) (p q : Ptr DoubleField) (v : Double) :
    (m.writeDouble p v).readDouble q = if q = p then v else m.readDouble q := by
  obtain ⟨a, f⟩ := p
  obtain ⟨b, g⟩ := q
  by_cases hab : b = a
  · subst hab
    by_cases hfg : g = f
    · subst hfg; simp [readDouble, writeDouble]
    · simp [readDouble, writeDouble, hfg]
  · simp [readDouble, writeDouble, hab]

theorem readDouble_writeBool (m : Mem) (p : Ptr BoolField) (q : Ptr DoubleField) (v : Bool) :
    (m.writeBool p v).readDouble q = m.readDouble q := by
  by_cases h : q.obj = p.obj
  · simp [readDouble, writeBool, h]
  · simp [readDouble, writeBool, h]

theorem readDouble_writeInt (m : Mem) (p : Ptr IntField) (q : Ptr DoubleField) (v : HighsInt) :
    (m.writeInt p v).readDouble q = m.readDouble q := by
  by_cases h : q.obj = p.obj
  · simp [readDouble, writeInt, h]
  · simp [readDouble, writeInt, h]

theorem readDouble_writeString (m : Mem) (p : Ptr StringField) (q : Ptr DoubleField) (v : String) :
    (m.writeString p v).readDouble q = m.readDouble q := by
  by_cases h : q.obj = p.obj
  · simp [readDouble, writeString, h]
  · simp [readDouble, writeString, h]

theorem readDouble_alloc (m : Mem) (r : OptionRecordRef) (q : Ptr DoubleField) :
    (m.alloc r).readDouble q = m.readDouble q := by
  simp [readDouble, alloc]

theorem readDouble_push_back (m : Mem) (this : Addr) (r : OptionRecordRef)
    (q : Ptr DoubleField) : (m.push_back this r).readDouble q = m.readDouble q := by
  by_cases h : q.obj = this
  · simp [readDouble, push_back, h]
  · simp [readDouble, push_back, h]

theorem readString_writeString (m : Mem) (p q : Ptr StringField) (v : String) :
    (m.writeString p v).readString q = if q = p then v else m.readString q := by
  obtain ⟨a, f⟩ := p
  obtain ⟨b, g⟩ := q
  by_cases hab : b = a
  · subst hab
    by_cases hfg : g = f
    · subst hfg; simp [readString, writeString]
    · simp [readString, writeString, hfg]
  · simp [readString, writeString, hab]

theorem readString_writeBool (m : Mem) (p : Ptr BoolField) (q : Ptr StringField) (v : Bool) :
    (m.writeBool p v).readString q = m.readString q := by
  by_cases h : q.obj = p.obj
  · simp [readString, writeBool, h]
  · simp [readString, writeBool, h]

theorem readString_writeInt (m : Mem) (p : Ptr IntField) (q : Ptr StringField) (v : HighsInt) :
    (m.writeInt p v).readString q = m.readString q := by
  by_cases h : q.obj = p.obj
  · simp [readString, writeInt, h]
  · simp [readString, writeInt, h]

theorem readString_writeDouble (m : Mem) (p : Ptr DoubleField) (q : Ptr StringField) (v : Double) :
    (m.writeDouble p v).readString q = m.readString q := by
  by_cases h : q.obj = p.obj
  · simp [readString, writeDouble, h]
  · simp [readString, writeDouble, h]

theorem readString_alloc (m : Mem) (r : OptionRecordRef) (q : Ptr StringField) :
    (m.alloc r).readString q = m.readString q := by
  simp [readString, alloc]

theorem readString_push_back (m : Mem) (this : Addr) (r : OptionRecordRef)
    (q : Ptr StringField) : (m.push_back this r).readString q = m.readString q := by
  by_cases h : q.obj = this
  · simp [readString, push_back, h]
  · simp [readString, push_back, h]

theorem store_writeBool (m : Mem) (p : Ptr BoolField) (v : Bool) :
    (m.writeBool p v).store = m.store := by
  simp [writeBool]

theorem recordsOf_writeBool (m : Mem) (p : Ptr BoolField) (v : Bool) (a : Addr) :
    (m.writeBool p v).recordsOf a = m.recordsOf a := by
  by_cases h : a = p.obj
  · simp [recordsOf, writeBool, h]
  · simp [recordsOf, writeBool, h]

theorem store_writeInt (m : Mem) (p : Ptr IntField) (v : HighsInt) :
    (m.writeInt p v).store = m.store := by
  simp [writeInt]

theorem recordsOf_writeInt (m : Mem) (p : Ptr IntField) (v : HighsInt) (a : Addr) :
    (m.writeInt p v).recordsOf a = m.recordsOf a := by
  by_cases h : a = p.obj
  · simp [recordsOf, writeInt, h]
  · simp [recordsOf, writeInt, h]

theorem store_writeDouble (m : Mem) (p : Ptr DoubleField) (v : Double) :
    (m.writeDouble p v).store = m.store := by
  simp [writeDouble]

theorem recordsOf_writeDouble (m : Mem) (p : Ptr DoubleField) (v : Double) (a : Addr) :
    (m.writeDouble p v).recordsOf a = m.recordsOf a := by
  by_cases h : a = p.obj
  · simp [recordsOf, writeDouble, h]
  · simp [recordsOf, writeDouble, h]

theorem store_writeString (m : Mem) (p : Ptr StringField) (v : String) :
    (m.writeString p v).store = m.store := by
  simp [writeString]

theorem recordsOf_writeString (m : Mem) (p : Ptr StringField) (v : String) (a : Addr) :
    (m.writeString p v).recordsOf a = m.recordsOf a := by
  by_cases h : a = p.obj
  · simp [recordsOf, writeString, h]
  · simp [recordsOf, writeString, h]

theorem store_alloc (m : Mem) (r : OptionRecordRef) : (m.alloc r).store = m.store ++ [r] := by
  simp [alloc]

theorem store_push_back (m : Mem) (this : Addr) (r : OptionRecordRef) :
    (m.push_back this r).store = m.store := by
  simp [push_back]

theorem recordsOf_alloc (m : Mem) (r : OptionRecordRef) (a : Addr) :
    (m.alloc r).recordsOf a = m.recordsOf a := by
  simp [recordsOf, alloc]

theorem recordsOf_push_back (m : Mem) (this : Addr) (r : OptionRecordRef) (a : Addr) :
    (m.push_back this r).recordsOf a
      = if a = this then m.recordsOf a ++ [r] else m.recordsOf a := by
  by_cases h : a = this
  · simp [recordsOf, push_back, h]
  · simp [recordsOf, push_back, h]

end Mem

/-! ## C1: a value outside the bounds is rejected -/

/-- C1. For every integer record and every real record, and every value `value` that is
not inside the record's declared `[lower_bound, upper_bound]`, `setLocalOptionValue`
returns `OptionStatus::kIllegalValue` and leaves the memory, hence the target of the
record's value pointer, as it was before the call. -/
theorem setLocalOptionValue_outside_bounds :
    (∀ (option : OptionRecordInt) (value : HighsInt) (m : Mem),
        ¬ (option.lower_bound ≤ value ∧ value ≤ option.upper_bound) →
        (option.setLocalOptionValue value m).1 = OptionStatus.kIllegalValue ∧
        (option.setLocalOptionValue value m).2 = m ∧
        (option.setLocalOptionValue value m).2.readInt option.value = m.readInt option.value) ∧
    (∀ (option : OptionRecordDouble) (value : Double) (m : Mem),
        ¬ (option.lower_bound.le value = true ∧ value.le option.upper_bound = true) →
        (option.setLocalOptionValue value m).1 = OptionStatus.kIllegalValue ∧
        (option.setLocalOptionValue value m).2 = m ∧
        (option.setLocalOptionValue value m).2.readDouble option.value
          = m.readDouble option.value) := by
  constructor
  · intro option value m h
    have hb : option.inBounds value = false := by
      simpa [OptionRecordInt.inBounds] using h
    simp [OptionRecordInt.setLocalOptionValue, hb]
  · intro option value m h
    have hb : option.inBounds value = false := by
      simpa [OptionRecordDouble.inBounds] using h
    simp [OptionRecordDouble.setLocalOptionValue, hb]

/-- C1 at concrete inputs: 21 is above the upper bound 20 of
`allowed_simplex_matrix_scale_factor`, and NaN is not inside the bounds of
`mip_heuristic_effort`. -/
theorem setLocalOptionValue_outside_bounds_witness :
    ((sampleIntRecord.setLocalOptionValue 21 sampleMem).1 = OptionStatus.kIllegalValue ∧
      (sampleIntRecord.setLocalOptionValue 21 sampleMem).2 = sampleMem ∧
      (sampleIntRecord.setLocalOptionValue 21 sampleMem).2.readInt sampleIntRecord.value
        = sampleMem.readInt sampleIntRecord.value) ∧
    ((sampleDoubleRecord.setLocalOptionValue Double.nan sampleMem).1
        = OptionStatus.kIllegalValue ∧
      (sampleDoubleRecord.setLocalOptionValue Double.nan sampleMem).2 = sampleMem ∧
      (sampleDoubleRecord.setLocalOptionValue Double.nan sampleMem).2.readDouble
          sampleDoubleRecord.value
        = sampleMem.readDouble sampleDoubleRecord.value) :=
  ⟨setLocalOptionValue_outside_bounds.1 sampleIntRecord 21 sampleMem (by decide),
   setLocalOptionValue_outside_bounds.2 sampleDoubleRecord Double.nan sampleMem
    (by simp [Double.le])⟩
/-! ## C2: `assignvalue` and the bounds -/

/-- C2 fails as stated. The record of `allowed_simplex_matrix_scale_factor` has bounds 0
and 20; from a memory where its stored value is 0, inside the bounds, `assignvalue(21)`
leaves 21 stored, outside the bounds: the prior value is not kept. -/
theorem assignvalue_leaves_bounds :
    sampleIntRecord.inBounds (sampleMem.readInt sampleIntRecord.value) = true ∧
    (sampleIntRecord.assignvalue 21 sampleMem).readInt sampleIntRecord.value = 21 ∧
    sampleIntRecord.inBounds
      ((sampleIntRecord.assignvalue 21 sampleMem).readInt sampleIntRecord.value) = false := by
  decide

/-- C2, amended. `assignvalue(v)` stores `v` whatever the bounds are: afterwards the target
of the value pointer is `v`, so it lies inside the declared bounds exactly when `v` does;
nothing else changes: every other member of the same type, every member of the three other
types, in every object, the records of every object and the allocated records are as
before. This holds for integer and for real records. -/
theorem assignvalue_stores_argument :
    (∀ (r : OptionRecordInt) (v : HighsInt) (m : Mem),
        (r.assignvalue v m).readInt r.value = v ∧
        r.inBounds ((r.assignvalue v m).readInt r.value) = r.inBounds v ∧
        (∀ q : Ptr IntField, q ≠ r.value → (r.assignvalue v m).readInt q = m.readInt q) ∧
        (∀ q : Ptr BoolField, (r.assignvalue v m).readBool q = m.readBool q) ∧
        (∀ q : Ptr DoubleField, (r.assignvalue v m).readDouble q = m.readDouble q) ∧
        (∀ q : Ptr StringField, (r.assignvalue v m).readString q = m.readString q) ∧
        (∀ a : Addr, (r.assignvalue v m).recordsOf a = m.recordsOf a) ∧
        (r.assignvalue v m).store = m.store) ∧
    (∀ (r : OptionRecordDouble) (v : Double) (m : Mem),
        (r.assignvalue v m).readDouble r.value = v ∧
        r.inBounds ((r.assignvalue v m).readDouble r.value) = r.inBounds v ∧
        (∀ q : Ptr DoubleField, q ≠ r.value →
          (r.assignvalue v m).readDouble q = m.readDouble q) ∧
        (∀ q : Ptr BoolField, (r.assignvalue v m).readBool q = m.readBool q) ∧
        (∀ q : Ptr IntField, (r.assignvalue v m).readInt q = m.readInt q) ∧
        (∀ q : Ptr StringField, (r.assignvalue v m).readString q = m.readString q) ∧
        (∀ a : Addr, (r.assignvalue v m).recordsOf a = m.recordsOf a) ∧
        (r.assignvalue v m).store = m.store) := by
  constructor
  · intro r v m
    have h : (r.assignvalue v m).readInt r.value = v := by
      simp [OptionRecordInt.assignvalue, Mem.readInt_writeInt]
    refine ⟨h, by rw [h], ?_, ?_, ?_, ?_, ?_, ?_⟩
    · intro q hq
      simp [OptionRecordInt.assignvalue, Mem.readInt_writeInt, hq]
    · intro q
      exact Mem.readBool_writeInt m r.value q v
    · intro q
      exact Mem.readDouble_writeInt m r.value q v
    · intro q
      exact Mem.readString_writeInt m r.value q v
    · intro a
      exact Mem.recordsOf_writeInt m r.value v a
    · exact Mem.store_writeInt m r.value v
  · intro r v m
    have h : (r.assignvalue v m).readDouble r.value = v := by
      simp [OptionRecordDouble.assignvalue, Mem.readDouble_writeDouble]
    refine ⟨h, by rw [h], ?_, ?_, ?_, ?_, ?_, ?_⟩
    · intro q hq
      simp [OptionRecordDouble.assignvalue, Mem.readDouble_writeDouble, hq]
    · intro q
      exact Mem.readBool_writeDouble m r.value q v
    · intro q
      exact Mem.readInt_writeDouble m r.value q v
    · intro q
      exact Mem.readString_writeDouble m r.value q v
    · intro a
      exact Mem.recordsOf_writeDouble m r.value v a
    · exact Mem.store_writeDouble m r.value v

/-- C2, amended, at a concrete input: storing 7 through the record of
`allowed_simplex_matrix_scale_factor` makes that member 7 and changes neither the integer
member `highs_random_seed`, nor the members `output_flag`, `time_limit` and `presolve` of
the three other types. -/
theorem assignvalue_stores_argument_witness :
    (sampleIntRecord.assignvalue 7 sampleMem).readInt sampleIntRecord.value = 7 ∧
    (sampleIntRecord.assignvalue 7 sampleMem).readInt ⟨0, IntField.highs_random_seed⟩
      = sampleMem.readInt ⟨0, IntField.highs_random_seed⟩ ∧
    (sampleIntRecord.assignvalue 7 sampleMem).readBool ⟨0, BoolField.output_flag⟩
      = sampleMem.readBool ⟨0, BoolField.output_flag⟩ ∧
    (sampleIntRecord.assignvalue 7 sampleMem).readDouble ⟨0, DoubleField.time_limit⟩
      = sampleMem.readDouble ⟨0, DoubleField.time_limit⟩ ∧
    (sampleIntRecord.assignvalue 7 sampleMem).readString ⟨0, StringField.presolve⟩
      = sampleMem.readString ⟨0, StringField.presolve⟩ :=
  have h := assignvalue_stores_argument.1 sampleIntRecord 7 sampleMem
  ⟨h.1, h.2.2.1 ⟨0, IntField.highs_random_seed⟩ (by decide), h.2.2.2.1 _, h.2.2.2.2.1 _,
   h.2.2.2.2.2.1 _⟩

/-! ## C3: the round trip -/

/-- C3. For an integer or real record and a value inside its bounds, and for a flag or a
string record and any value, `setLocalOptionValue` returns `OptionStatus::kOk` and the
value read back through the record's value pointer is the value that was set. -/
theorem setLocalOptionValue_round_trip :
    (∀ (option : OptionRecordInt) (value : HighsInt) (m : Mem),
        option.lower_bound ≤ value → value ≤ option.upper_bound →
        (option.setLocalOptionValue value m).1 = OptionStatus.kOk ∧
        option.getLocalOptionValue (option.setLocalOptionValue value m).2 = value) ∧
    (∀ (option : OptionRecordDouble) (value : Double) (m : Mem),
        option.lower_bound.le value = true → value.le option.upper_bound = true →
        (option.setLocalOptionValue value m).1 = OptionStatus.kOk ∧
        option.getLocalOptionValue (option.setLocalOptionValue value m).2 = value) ∧
    (∀ (option : OptionRecordBool) (value : Bool) (m : Mem),
        (option.setLocalOptionValue value m).1 = OptionStatus.kOk ∧
        option.getLocalOptionValue (option.setLocalOptionValue value m).2 = value) ∧
    (∀ (option : OptionRecordString) (value : String) (m : Mem),
        (option.setLocalOptionValue value m).1 = OptionStatus.kOk ∧
        option.getLocalOptionValue (option.setLocalOptionValue value m).2 = value) := by
  refine ⟨?_, ?_, ?_, ?_⟩
  · intro option value m h1 h2
    have hb : option.inBounds value = true := by
      simp [OptionRecordInt.inBounds, h1, h2]
    simp [OptionRecordInt.setLocalOptionValue, hb, OptionRecordInt.getLocalOptionValue,
      OptionRecordInt.assignvalue, Mem.readInt_writeInt]
  · intro option value m h1 h2
    have hb : option.inBounds value = true := by
      simp [OptionRecordDouble.inBounds, h1, h2]
    simp [OptionRecordDouble.setLocalOptionValue, hb, OptionRecordDouble.getLocalOptionValue,
      OptionRecordDouble.assignvalue, Mem.readDouble_writeDouble]
  · intro option value m
    simp [OptionRecordBool.setLocalOptionValue, OptionRecordBool.getLocalOptionValue,
      OptionRecordBool.assignvalue, Mem.readBool_writeBool]
  · intro option value m
    simp [OptionRecordString.setLocalOptionValue, OptionRecordString.getLocalOptionValue,
      OptionRecordString.assignvalue, Mem.readString_writeString]

/-- C3 at concrete inputs: 20, the upper bound itself, for
`allowed_simplex_matrix_scale_factor`, and 1/2 for `mip_heuristic_effort`. -/
theorem setLocalOptionValue_round_trip_witness :
    ((sampleIntRecord.setLocalOptionValue 20 sampleMem).1 = OptionStatus.kOk ∧
      sampleIntRecord.getLocalOptionValue (sampleIntRecord.setLocalOptionValue 20 sampleMem).2
        = 20) ∧
    ((sampleDoubleRecord.setLocalOptionValue (Double.fin (1 / 2)) sampleMem).1
        = OptionStatus.kOk ∧
      sampleDoubleRecord.getLocalOptionValue
          (sampleDoubleRecord.setLocalOptionValue (Double.fin (1 / 2)) sampleMem).2
        = Double.fin (1 / 2)) :=
  ⟨setLocalOptionValue_round_trip.1 sampleIntRecord 20 sampleMem (by decide) (by decide),
   setLocalOptionValue_round_trip.2.1 sampleDoubleRecord (Double.fin (1 / 2)) sampleMem
    (by norm_num [sampleDoubleRecord, OptionRecordDouble.construct, Double.le])
    (by norm_num [sampleDoubleRecord, OptionRecordDouble.construct, Double.le])⟩

/-! ## What `initRecords` creates and stores -/

set_option maxRecDepth 100000 in
set_option maxHeartbeats 4000000 in
/-- After `initRecords`, the target of the value pointer of every record it created holds
that record's default. -/
theorem initRecords_storedValue (k : Consts) (this : Addr) (m : Mem) :
    ∀ r ∈ Mem.createdSince m (initRecords k this m),
      r.storedValue (initRecords k this m) = r.defaultValue := by
  simp only [initRecords, OptionRecordInt.construct, OptionRecordBool.construct,
    OptionRecordDouble.construct, OptionRecordString.construct, Mem.createdSince,
    Mem.store_alloc, Mem.store_push_back, Mem.store_writeInt, Mem.store_writeBool,
    Mem.store_writeDouble, Mem.store_writeString, List.append_assoc, List.cons_append,
    List.nil_append, List.drop_left, List.forall_mem_cons]
  simp only [OptionRecordRef.storedValue, OptionRecordRef.defaultValue,
    Mem.readInt_writeInt, Mem.readInt_writeBool, Mem.readInt_writeDouble, Mem.readInt_writeString,
    Mem.readInt_alloc, Mem.readInt_push_back,
    Mem.readBool_writeInt, Mem.readBool_writeBool, Mem.readBool_writeDouble, Mem.readBool_writeString,
    Mem.readBool_alloc, Mem.readBool_push_back,
    Mem.readDouble_writeInt, Mem.readDouble_writeBool, Mem.readDouble_writeDouble, Mem.readDouble_writeString,
    Mem.readDouble_alloc, Mem.readDouble_push_back,
    Mem.readString_writeInt, Mem.readString_writeBool, Mem.readString_writeDouble, Mem.readString_writeString,
    Mem.readString_alloc, Mem.readString_push_back, Ptr.mk.injEq, true_and, reduceCtorEq, if_false, if_true,
    and_false, and_true,
    List.mem_nil_iff, and_self, forall_const, false_implies, implies_true, List.not_mem_nil]

set_option maxRecDepth 100000 in
set_option maxHeartbeats 4000000 in
/-- The function `initRecords` creates 67 records. -/
theorem initRecords_created_length (k : Consts) (this : Addr) (m : Mem) :
    (Mem.createdSince m (initRecords k this m)).length = 67 := by
  simp only [initRecords, OptionRecordInt.construct, OptionRecordBool.construct,
    OptionRecordDouble.construct, OptionRecordString.construct, Mem.createdSince,
    Mem.store_alloc, Mem.store_push_back, Mem.store_writeInt, Mem.store_writeBool,
    Mem.store_writeDouble, Mem.store_writeString, List.append_assoc, List.cons_append,
    List.nil_append, List.drop_left, List.length_cons, List.length_nil]

/-- The stored value of a record is what memory holds at the record's target. -/
theorem storedValue_eq_read (m : Mem) (r : OptionRecordRef) :
    r.storedValue m = m.read r.target := by
  cases r <;> rfl

set_option maxRecDepth 100000 in
set_option maxHeartbeats 4000000 in
/-- Exactly one of the records that `initRecords` creates targets a given option member. -/
theorem initRecords_one_record_per_field (k : Consts) (this : Addr) (m : Mem) (f : Member) :
    ((Mem.createdSince m (initRecords k this m)).filter
      (fun r => decide (r.target = ⟨this, f⟩))).length = 1 := by
  simp only [initRecords, OptionRecordInt.construct, OptionRecordBool.construct,
    OptionRecordDouble.construct, OptionRecordString.construct, Mem.createdSince,
    Mem.store_alloc, Mem.store_push_back, Mem.store_writeInt, Mem.store_writeBool,
    Mem.store_writeDouble, Mem.store_writeString, List.append_assoc, List.cons_append,
    List.nil_append, List.drop_left, OptionRecordRef.target]
  rcases f with f | f | f | f <;> cases f <;>
    simp only [List.filter_cons, List.filter_nil, Ptr.mk.injEq, true_and, reduceCtorEq,
      decide_False, decide_True, Member.int.injEq, Member.bool.injEq, Member.double.injEq,
      Member.string.injEq, if_true, if_false, List.length_cons, List.length_nil,
      Bool.false_eq_true]


/-- A record whose stored value is its default has its stored value inside the bounds
exactly when its default is. -/
theorem storedInBounds_of_storedValue (m : Mem) (r : OptionRecordRef)
    (h : r.storedValue m = r.defaultValue) : r.storedInBounds m = r.defaultInBounds := by
  cases r <;> simp [OptionRecordRef.storedValue, OptionRecordRef.defaultValue] at h <;>
    simp [OptionRecordRef.storedInBounds, OptionRecordRef.defaultInBounds, h]

/-! ## C4: the defaults lie inside the bounds -/

set_option maxRecDepth 100000 in
set_option maxHeartbeats 4000000 in
/-- C4. Given that each named constant that bounds a record is ordered as minimum, default,
maximum (`Consts.ordered`), with `kHighsInf` read as plus infinity and `kHighsIInf` as the
largest 32-bit integer: `initRecords` creates 67 records, every integer and every real
record among them has `lower_bound <= default_value <= upper_bound`, and right after
`initRecords` the stored value of each lies inside its declared bounds. -/
theorem initRecords_defaults_in_bounds (k : Consts) (hk : k.ordered) (this : Addr) (m : Mem) :
    (Mem.createdSince m (initRecords k this m)).length = 67 ∧
    ∀ r ∈ Mem.createdSince m (initRecords k this m),
      r.defaultInBounds = true ∧ r.storedInBounds (initRecords k this m) = true := by
  refine ⟨by simp [initRecords_created_length], ?_⟩
  have hd : ∀ r ∈ Mem.createdSince m (initRecords k this m), r.defaultInBounds = true := by
    obtain ⟨h1, h2, ⟨h3, h4⟩, ⟨h5, h6⟩, ⟨h7, h8⟩, ⟨h9, h10⟩, ⟨h11, h12⟩, h13, ⟨h14, h15⟩, h16,
      ⟨h17, h18⟩, ⟨h19, h20⟩, ⟨h21, h22⟩, ⟨h23, h24⟩⟩ := hk
    simp only [initRecords, OptionRecordInt.construct, OptionRecordBool.construct,
      OptionRecordDouble.construct, OptionRecordString.construct, Mem.createdSince,
      Mem.store_alloc, Mem.store_push_back, Mem.store_writeInt, Mem.store_writeBool,
      Mem.store_writeDouble, Mem.store_writeString, List.append_assoc, List.cons_append,
      List.nil_append, List.drop_left, List.forall_mem_cons]
    simp only [OptionRecordRef.defaultInBounds, OptionRecordInt.inBounds,
      OptionRecordDouble.inBounds, kHighsInf, kHighsIInf, int16_max,
      KEEP_N_ROWS_DELETE_ROWS, KEEP_N_ROWS_KEEP_ROWS, h1, h2, h3, h4, h5, h6, h7, h8, h9, h10,
      h11, h12, h13, h14, h15, h16, h17, h18, h19, h20, h21, h22, h23, h24,
      List.not_mem_nil, false_implies, implies_true, and_true, true_and, Bool.and_self,
      Bool.and_true, Bool.true_and, decide_eq_true_eq, Bool.and_eq_true, le_refl, decide_True]
    norm_num [Double.le]
  intro r hr
  refine ⟨hd r hr, ?_⟩
  rw [storedInBounds_of_storedValue _ _ (initRecords_storedValue k this m r hr)]
  exact hd r hr

/-- C4 at a concrete input: the constants `sampleConsts` are ordered, and for them every
record that `initRecords` creates in the object at address 0 has its default, and its
stored value, inside its bounds. -/
theorem initRecords_defaults_in_bounds_witness :
    sampleConsts.ordered ∧
    (Mem.createdSince sampleMem (initRecords sampleConsts 0 sampleMem)).length = 67 ∧
    ∀ r ∈ Mem.createdSince sampleMem (initRecords sampleConsts 0 sampleMem),
      r.defaultInBounds = true ∧
      r.storedInBounds (initRecords sampleConsts 0 sampleMem) = true :=
  ⟨by norm_num [Consts.ordered, sampleConsts, Double.le],
   initRecords_defaults_in_bounds sampleConsts
    (by norm_num [Consts.ordered, sampleConsts, Double.le]) 0 sampleMem⟩

/-! ## C5: every option holds its default after `initRecords` -/

set_option maxRecDepth 100000 in
set_option maxHeartbeats 4000000 in
/-- C5. After `initRecords` has run inside the object at `this`, for every option member
`f` of `HighsOptionsStruct` (flag, integer, real or string) exactly one of the records
created by `initRecords` targets `f`, and `f` holds exactly that record's
`default_value`; in particular `mip_feasibility_tolerance` holds `1e-6` and `mip_epsilon`
holds `1e-9`, the defaults of the two records that are created and never pushed. -/
theorem initRecords_every_option_defaulted (k : Consts) (this : Addr) (m : Mem) :
    (∀ f : Member,
      ((Mem.createdSince m (initRecords k this m)).filter
          (fun r => decide (r.target = ⟨this, f⟩))).map OptionRecordRef.defaultValue
        = [(initRecords k this m).read ⟨this, f⟩]) ∧
    (initRecords k this m).readDouble ⟨this, DoubleField.mip_feasibility_tolerance⟩
      = Double.fin (1 / 10 ^ 6) ∧
    (initRecords k this m).readDouble ⟨this, DoubleField.mip_epsilon⟩
      = Double.fin (1 / 10 ^ 9) := by
  have hall : ∀ f : Member,
      ((Mem.createdSince m (initRecords k this m)).filter
          (fun r => decide (r.target = ⟨this, f⟩))).map OptionRecordRef.defaultValue
        = [(initRecords k this m).read ⟨this, f⟩] := by
    intro f
    obtain ⟨r, hr⟩ := List.length_eq_one.mp (initRecords_one_record_per_field k this m f)
    have hmem : r ∈ (Mem.createdSince m (initRecords k this m)).filter
        (fun r => decide (r.target = ⟨this, f⟩)) := by
      rw [hr]; exact List.mem_singleton_self r
    rw [List.mem_filter] at hmem
    rw [hr, List.map_cons, List.map_nil, ← initRecords_storedValue k this m r hmem.1,
      storedValue_eq_read, of_decide_eq_true hmem.2]
  refine ⟨hall, ?_, ?_⟩
  · have h := hall (Member.double DoubleField.mip_feasibility_tolerance)
    simp only [initRecords, OptionRecordInt.construct, OptionRecordBool.construct,
      OptionRecordDouble.construct, OptionRecordString.construct, Mem.createdSince,
      Mem.store_alloc, Mem.store_push_back, Mem.store_writeInt, Mem.store_writeBool,
      Mem.store_writeDouble, Mem.store_writeString, List.append_assoc, List.cons_append,
      List.nil_append, List.drop_left, OptionRecordRef.target,
      List.filter_cons, List.filter_nil, Ptr.mk.injEq, true_and, reduceCtorEq,
      decide_False, decide_True, Member.double.injEq, if_true, if_false,
      Bool.false_eq_true, List.map_cons, List.map_nil, OptionRecordRef.defaultValue,
      Mem.read, List.cons.injEq, and_true, OptionValue.double.injEq] at h
    simp only [initRecords, OptionRecordInt.construct, OptionRecordBool.construct,
      OptionRecordDouble.construct, OptionRecordString.construct]
    exact h.symm
  · have h := hall (Member.double DoubleField.mip_epsilon)
    simp only [initRecords, OptionRecordInt.construct, OptionRecordBool.construct,
      OptionRecordDouble.construct, OptionRecordString.construct, Mem.createdSince,
      Mem.store_alloc, Mem.store_push_back, Mem.store_writeInt, Mem.store_writeBool,
      Mem.store_writeDouble, Mem.store_writeString, List.append_assoc, List.cons_append,
      List.nil_append, List.drop_left, OptionRecordRef.target,
      List.filter_cons, List.filter_nil, Ptr.mk.injEq, true_and, reduceCtorEq,
      decide_False, decide_True, Member.double.injEq, if_true, if_false,
      Bool.false_eq_true, List.map_cons, List.map_nil, OptionRecordRef.defaultValue,
      Mem.read, List.cons.injEq, and_true, OptionValue.double.injEq] at h
    simp only [initRecords, OptionRecordInt.construct, OptionRecordBool.construct,
      OptionRecordDouble.construct, OptionRecordString.construct]
    exact h.symm

/-! ## C6 and C7: the optimum of `test-qo1` -/

/-- The objective of the model of `test-qo1`, as a polynomial in the three column values. -/
theorem qo1_model_objective {K : Type} [Field K] [CharZero K] (b : Bool) (x1 x2 x3 : K) :
    (qo1_model b).objective [x1, x2, x3]
      = -x2 - 3 * x3 + (1 / 2) * (2 * x1 ^ 2 - 2 * x1 * x3 + (2 / 10) * x2 ^ 2 + 2 * x3 ^ 2) := by
  simp only [HighsModel.objective, HighsHessian.quadraticForm, HighsHessian.column, qo1_model,
    List.range_succ, List.range_zero, List.getD_cons_zero, List.getD_cons_succ, List.map_cons,
    List.map_nil, List.sum_cons, List.sum_nil, List.nil_append, List.cons_append,
    List.singleton_append, Nat.reduceSub, Nat.reduceAdd, zero_add]
  push_cast
  ring

/-- C6 fails as stated. The model that `test-qo1` passes has no row and three free columns,
and its objective at `x = (1, 5, 2)` is `-5.5`: no value within `1e-5` of `-5.25` is the
minimum of the objective over all real `x`. -/
theorem qo1_optimum_is_not_required_value :
    ¬ ∃ v : ℝ,
      IsLeast {w : ℝ | ∃ x1 x2 x3 : ℝ, w = (qo1_model uncon).objective [x1, x2, x3]} v ∧
      |v - (required_objective_function_value : ℝ)| < (double_equal_tolerance : ℝ) := by
  rintro ⟨v, ⟨-, hle⟩, hv⟩
  have h := hle ⟨1, 5, 2, rfl⟩
  rw [qo1_model_objective] at h
  rw [abs_lt] at hv
  norm_num [required_objective_function_value, double_equal_tolerance] at h hv
  linarith [hv.1]

/-- C6, amended. The model that `test-qo1` passes has no row and three columns free in
`(-inf, +inf)`; the minimum of its objective over all real `x` is `-5.5`, attained at
`x = (1, 5, 2)`, which is `0.25` below `required_objective_function_value`. -/
theorem qo1_unconstrained_optimum :
    (qo1_model uncon).lp_.numRow_ = 0 ∧
    (qo1_model uncon).lp_.colLower_ = [Double.ninf, Double.ninf, Double.ninf] ∧
    (qo1_model uncon).lp_.colUpper_ = [Double.pinf, Double.pinf, Double.pinf] ∧
    (qo1_model uncon).objective [(1 : ℝ), 5, 2] = -11 / 2 ∧
    IsLeast {w : ℝ | ∃ x1 x2 x3 : ℝ, w = (qo1_model uncon).objective [x1, x2, x3]} (-11 / 2) ∧
    (required_objective_function_value : ℝ) - (-11 / 2) = 1 / 4 := by
  refine ⟨rfl, rfl, rfl, ?_, ⟨⟨1, 5, 2, ?_⟩, ?_⟩, ?_⟩
  · rw [qo1_model_objective]; norm_num
  · rw [qo1_model_objective]; norm_num
  · rintro w ⟨x1, x2, x3, rfl⟩
    rw [qo1_model_objective]
    nlinarith [sq_nonneg (x1 - 1 - (x3 - 2) / 2), sq_nonneg (x3 - 2), sq_nonneg (x2 - 5)]
  · norm_num [required_objective_function_value]

/-- C7. The problem in the comment of `test-qo1` has optimal value `-5.25`, the test's
`required_objective_function_value`: the point `(0.5, 5, 1.5)` is feasible and has that
objective, and no feasible point has a smaller objective. -/
theorem qo1_documented_optimum :
    qo1_documented_feasible (1 / 2 : ℝ) 5 (3 / 2) ∧
    qo1_documented_objective (1 / 2 : ℝ) 5 (3 / 2) = (required_objective_function_value : ℝ) ∧
    ∀ x1 x2 x3 : ℝ, qo1_documented_feasible x1 x2 x3 →
      (required_objective_function_value : ℝ) ≤ qo1_documented_objective x1 x2 x3 := by
  refine ⟨?_, ?_, ?_⟩
  · norm_num [qo1_documented_feasible]
  · norm_num [qo1_documented_objective, required_objective_function_value]
  · rintro x1 x2 x3 ⟨h1, -, -, -⟩
    simp only [qo1_documented_objective, required_objective_function_value]
    push_cast
    nlinarith [sq_nonneg (x1 - 1 / 2 - (x3 - 3 / 2) / 2), sq_nonneg (x3 - 3 / 2),
      sq_nonneg (x2 - 5)]

/-- C7 at a concrete input: the origin is feasible, and its objective, 0, is not below
`-5.25`. -/
theorem qo1_documented_optimum_witness :
    qo1_documented_feasible (0 : ℝ) 0 0 ∧
    (required_objective_function_value : ℝ) ≤ qo1_documented_objective (0 : ℝ) 0 0 :=
  ⟨by norm_num [qo1_documented_feasible],
   qo1_documented_optimum.2.2 0 0 0 (by norm_num [qo1_documented_feasible])⟩

/-! ## C9: the LP scenario -/

/-- C9 fails as stated. The linear objective with coefficients `(0, -1)` and offset 0 has
the value `-1.7` at `(1.4, 1.7)`, which is not within `1e-5` of `-6.45`. -/
theorem lp_scenario_objective_is_not_required_value :
    ¬ |lp_scenario_model.objective qpsolver_required_col_value - qpsolver_required_objective|
        < double_equal_tolerance := by
  norm_num [HighsModel.objective, HighsHessian.quadraticForm, lp_scenario_model,
    qpsolver_required_col_value, qpsolver_required_objective, double_equal_tolerance,
    List.range_succ, abs_lt]

/-- C9, amended. At `(1.4, 1.7)` the linear objective with coefficients `(0, -1)` and
offset 0 has the value `-1.7`, at distance `4.75` from `-6.45`. -/
theorem lp_scenario_objective_value :
    lp_scenario_model.objective qpsolver_required_col_value = -17 / 10 ∧
    |lp_scenario_model.objective qpsolver_required_col_value - qpsolver_required_objective|
      = 19 / 4 := by
  have h : lp_scenario_model.objective qpsolver_required_col_value = -17 / 10 := by
    norm_num [HighsModel.objective, HighsHessian.quadraticForm, lp_scenario_model,
      qpsolver_required_col_value, List.range_succ]
  refine ⟨h, ?_⟩
  rw [h]
  norm_num [qpsolver_required_objective, abs_of_pos]

/-! ## C11: 0 is a legal iteration limit -/

set_option maxRecDepth 100000 in
set_option maxHeartbeats 4000000 in
/-- C11. Among the records that `initRecords` pushes, the one named
`simplex_iteration_limit` and the one named `ipm_iteration_limit` are integer records
with `lower_bound = 0` and `upper_bound = kHighsIInf`, whose default is the upper bound;
0 lies inside these bounds, and setting the option to 0 through the record is answered
with `kOk`. -/
theorem iteration_limit_zero_is_legal (k : Consts) (this : Addr) (m : Mem) :
    (∃ r : OptionRecordInt,
      (Mem.pushedSince m (initRecords k this m) this).filter
          (fun r => decide (r.name = "simplex_iteration_limit")) = [OptionRecordRef.int r] ∧
      r.value = ⟨this, IntField.simplex_iteration_limit⟩ ∧
      r.lower_bound = 0 ∧ r.upper_bound = kHighsIInf ∧ r.default_value = r.upper_bound ∧
      r.inBounds 0 = true ∧
      ∀ m' : Mem, (r.setLocalOptionValue 0 m').1 = OptionStatus.kOk) ∧
    (∃ r : OptionRecordInt,
      (Mem.pushedSince m (initRecords k this m) this).filter
          (fun r => decide (r.name = "ipm_iteration_limit")) = [OptionRecordRef.int r] ∧
      r.value = ⟨this, IntField.ipm_iteration_limit⟩ ∧
      r.lower_bound = 0 ∧ r.upper_bound = kHighsIInf ∧ r.default_value = r.upper_bound ∧
      r.inBounds 0 = true ∧
      ∀ m' : Mem, (r.setLocalOptionValue 0 m').1 = OptionStatus.kOk) := by
  simp only [initRecords, OptionRecordInt.construct, OptionRecordBool.construct,
    OptionRecordDouble.construct, OptionRecordString.construct, Mem.pushedSince,
    Mem.recordsOf_alloc, Mem.recordsOf_push_back, Mem.recordsOf_writeInt,
    Mem.recordsOf_writeBool, Mem.recordsOf_writeDouble, Mem.recordsOf_writeString, if_true,
    List.append_assoc, List.cons_append, List.nil_append, List.drop_left,
    OptionRecordRef.name, OptionRecordRef.base, model_file_string, presolve_string,
    solver_string, parallel_string, time_limit_string, options_file_string, log_file_string,
    List.filter_cons, List.filter_nil, String.reduceEq, decide_False, decide_True,
    Bool.false_eq_true, if_false]
  refine ⟨⟨_, rfl, rfl, rfl, rfl, rfl, by simp [OptionRecordInt.inBounds, kHighsIInf], ?_⟩,
    ⟨_, rfl, rfl, rfl, rfl, rfl, by simp [OptionRecordInt.inBounds, kHighsIInf], ?_⟩⟩
  · intro m'
    simp [OptionRecordInt.setLocalOptionValue, OptionRecordInt.inBounds, kHighsIInf]
  · intro m'
    simp [OptionRecordInt.setLocalOptionValue, OptionRecordInt.inBounds, kHighsIInf]
/-! ## The records that `initRecords` pushes -/

/-- Counting the records of a list that target a member of the object at `this`, when
every record of the list targets that object, is counting the member among the targets. -/
theorem filter_target_length (l : List OptionRecordRef) (this : Addr)
    (h : ∀ r ∈ l, r.target.obj = this) (f : Member) :
    (l.filter (fun r => decide (r.target = ⟨this, f⟩))).length
      = (l.map (fun r => r.target.field)).count f := by
  induction l with
  | nil => simp
  | cons a l ih =>
    have ha : a.target.obj = this := h a (List.mem_cons_self a l)
    have hl : ∀ r ∈ l, r.target.obj = this := fun r hr => h r (List.mem_cons_of_mem a hr)
    have hiff : a.target = ⟨this, f⟩ ↔ a.target.field = f := by
      constructor
      · intro e; rw [e]
      · intro e
        cases hat : a.target with
        | mk o g =>
          rw [hat] at ha e
          simp only at ha e
          rw [ha, e]
    by_cases hf : a.target.field = f
    · simp [List.filter_cons, hiff, hf, ih hl, List.count_cons]
    · simp [List.filter_cons, hiff, hf, ih hl, List.count_cons]

set_option maxRecDepth 100000 in
set_option maxHeartbeats 4000000 in
/-- Every record that `initRecords` pushes targets a member of the object it runs in. -/
theorem initRecords_pushed_target (k : Consts) (this : Addr) (m : Mem) :
    ∀ r ∈ Mem.pushedSince m (initRecords k this m) this, r.target.obj = this := by
  simp only [initRecords, OptionRecordInt.construct, OptionRecordBool.construct,
    OptionRecordDouble.construct, OptionRecordString.construct, Mem.pushedSince,
    Mem.recordsOf_alloc, Mem.recordsOf_push_back, Mem.recordsOf_writeInt, Mem.recordsOf_writeBool,
    Mem.recordsOf_writeDouble, Mem.recordsOf_writeString, if_true, List.append_assoc, List.cons_append,
    List.nil_append, List.drop_left, OptionRecordRef.target, List.forall_mem_cons,
    List.not_mem_nil, false_implies, implies_true, and_self]

/-! ## C14: which members have a record in `records` -/

set_option maxRecDepth 100000 in
set_option maxHeartbeats 4000000 in
/-- C14, evaluated on the code. The function `initRecords` pushes 65 records. For every
option member other than `mip_feasibility_tolerance` and `mip_epsilon` exactly one pushed
record targets the member; for these two no pushed record does: their records are
created and the pointer to each is overwritten before any `push_back`. -/
theorem records_per_member (k : Consts) (this : Addr) (m : Mem) :
    (Mem.pushedSince m (initRecords k this m) this).length = 65 ∧
    ∀ f : Member,
      ((Mem.pushedSince m (initRecords k this m) this).filter
          (fun r => decide (r.target = ⟨this, f⟩))).length
        = if f = Member.double DoubleField.mip_feasibility_tolerance ∨
            f = Member.double DoubleField.mip_epsilon then 0 else 1 := by
  constructor
  · simp only [initRecords, OptionRecordInt.construct, OptionRecordBool.construct,
      OptionRecordDouble.construct, OptionRecordString.construct, Mem.pushedSince,
      Mem.recordsOf_alloc, Mem.recordsOf_push_back, Mem.recordsOf_writeInt,
      Mem.recordsOf_writeBool, Mem.recordsOf_writeDouble, Mem.recordsOf_writeString, if_true,
      List.append_assoc, List.cons_append, List.nil_append, List.drop_left, List.length_cons,
      List.length_nil]
  · intro f
    rw [filter_target_length _ _ (initRecords_pushed_target k this m)]
    simp only [initRecords, OptionRecordInt.construct, OptionRecordBool.construct,
      OptionRecordDouble.construct, OptionRecordString.construct, Mem.pushedSince,
      Mem.recordsOf_alloc, Mem.recordsOf_push_back, Mem.recordsOf_writeInt,
      Mem.recordsOf_writeBool, Mem.recordsOf_writeDouble, Mem.recordsOf_writeString, if_true,
      List.append_assoc, List.cons_append, List.nil_append, List.drop_left,
      OptionRecordRef.target, List.map_cons, List.map_nil]
    revert f
    decide
/-! ## C15: the names of the records are distinct -/

set_option maxRecDepth 100000 in
set_option maxHeartbeats 4000000 in
/-- C15. The records that `initRecords` pushes on `records` have pairwise distinct names:
the list of their names has no duplicate, so two records of the list with the same name
are the same record, and a name singles out at most one record. -/
theorem initRecords_names_distinct (k : Consts) (this : Addr) (m : Mem) :
    ((Mem.pushedSince m (initRecords k this m) this).map OptionRecordRef.name).Nodup ∧
    (∀ r1 ∈ Mem.pushedSince m (initRecords k this m) this,
      ∀ r2 ∈ Mem.pushedSince m (initRecords k this m) this, r1.name = r2.name → r1 = r2) ∧
    ∀ name : String,
      ((Mem.pushedSince m (initRecords k this m) this).filter
        (fun r => decide (r.name = name))).length ≤ 1 := by
  have hn : ((Mem.pushedSince m (initRecords k this m) this).map OptionRecordRef.name).Nodup := by
    simp only [initRecords, OptionRecordInt.construct, OptionRecordBool.construct,
      OptionRecordDouble.construct, OptionRecordString.construct, Mem.pushedSince,
      Mem.recordsOf_alloc, Mem.recordsOf_push_back, Mem.recordsOf_writeInt,
      Mem.recordsOf_writeBool, Mem.recordsOf_writeDouble, Mem.recordsOf_writeString, if_true,
      List.append_assoc, List.cons_append, List.nil_append, List.drop_left, List.map_cons,
      List.map_nil, OptionRecordRef.name, OptionRecordRef.base, model_file_string,
      presolve_string, solver_string, parallel_string, time_limit_string, options_file_string,
      log_file_string]
    decide
  refine ⟨hn, ?_, ?_⟩
  · intro r1 h1 r2 h2 h
    exact List.inj_on_of_nodup_map hn h1 h2 h
  · intro name
    have hf : ((Mem.pushedSince m (initRecords k this m) this).filter
        (fun r => decide (r.name = name))).map OptionRecordRef.name
          = ((Mem.pushedSince m (initRecords k this m) this).map OptionRecordRef.name).filter
              (fun s => decide (s = name)) := by
      rw [List.filter_map]
      rfl
    have hlen := congrArg List.length hf
    rw [List.length_map] at hlen
    rw [hlen, ← List.countP_eq_length_filter]
    have hc := List.nodup_iff_count_le_one.mp hn name
    rw [List.count_eq_countP] at hc
    have he : List.countP (fun s => decide (s = name))
        ((Mem.pushedSince m (initRecords k this m) this).map OptionRecordRef.name)
        = List.countP (fun s => s == name)
          ((Mem.pushedSince m (initRecords k this m) this).map OptionRecordRef.name) := by
      apply List.countP_congr
      intro s _
      simp
    rw [he]
    exact hc
/-! ## C16: the tag of a record is the tag of its class -/

set_option maxRecDepth 100000 in
set_option maxHeartbeats 4000000 in
/-- C16. Every record that `initRecords` creates, and so every one of the 65 records it
pushes on `records`, has in its member `type` the tag of its own class: `kBool` for an
`OptionRecordBool`, `kInt` for an `OptionRecordInt`, `kDouble` for an
`OptionRecordDouble`, `kString` for an `OptionRecordString`. -/
theorem initRecords_type_is_kind (k : Consts) (this : Addr) (m : Mem) :
    (Mem.pushedSince m (initRecords k this m) this).length = 65 ∧
    (∀ r ∈ Mem.pushedSince m (initRecords k this m) this, r.type = r.kind) ∧
    (∀ r ∈ Mem.createdSince m (initRecords k this m), r.type = r.kind) := by
  refine ⟨?_, ?_, ?_⟩
  · simp only [initRecords, OptionRecordInt.construct, OptionRecordBool.construct,
      OptionRecordDouble.construct, OptionRecordString.construct, Mem.pushedSince,
      Mem.recordsOf_alloc, Mem.recordsOf_push_back, Mem.recordsOf_writeInt,
      Mem.recordsOf_writeBool, Mem.recordsOf_writeDouble, Mem.recordsOf_writeString, if_true,
      List.append_assoc, List.cons_append, List.nil_append, List.drop_left, List.length_cons,
      List.length_nil]
  · simp only [initRecords, OptionRecordInt.construct, OptionRecordBool.construct,
      OptionRecordDouble.construct, OptionRecordString.construct, Mem.pushedSince,
      Mem.recordsOf_alloc, Mem.recordsOf_push_back, Mem.recordsOf_writeInt,
      Mem.recordsOf_writeBool, Mem.recordsOf_writeDouble, Mem.recordsOf_writeString, if_true,
      List.append_assoc, List.cons_append, List.nil_append, List.drop_left,
      List.forall_mem_cons, OptionRecordRef.type, OptionRecordRef.base, OptionRecordRef.kind,
      List.not_mem_nil, false_implies, implies_true, and_self]
  · simp only [initRecords, OptionRecordInt.construct, OptionRecordBool.construct,
      OptionRecordDouble.construct, OptionRecordString.construct, Mem.createdSince,
      Mem.store_alloc, Mem.store_push_back, Mem.store_writeInt, Mem.store_writeBool,
      Mem.store_writeDouble, Mem.store_writeString, List.append_assoc, List.cons_append,
      List.nil_append, List.drop_left, List.forall_mem_cons, OptionRecordRef.type,
      OptionRecordRef.base, OptionRecordRef.kind, List.not_mem_nil, false_implies,
      implies_true, and_self]
/-! ## C17: the perturbation multipliers -/

set_option maxRecDepth 100000 in
set_option maxHeartbeats 4000000 in
/-- The pushed records that bear one of the four possible names of a perturbation
multiplier. -/
theorem initRecords_perturbation_records (k : Consts) (this : Addr) (m : Mem) :
    (Mem.pushedSince m (initRecords k this m) this).filter
        (fun r => decide (r.name = perturbation_multiplier_name "dual" "cost"))
      = [OptionRecordRef.double
          { type := HighsOptionType.kDouble
            name := "dual_simplex_cost_perturbation_multiplier"
            description := "Dual simplex cost perturbation multiplier: 0 => no perturbation"
            advanced := true
            value := ⟨this, DoubleField.dual_simplex_cost_perturbation_multiplier⟩
            lower_bound := Double.fin 0
            upper_bound := Double.pinf
            default_value := Double.fin 1 }] ∧
    (Mem.pushedSince m (initRecords k this m) this).filter
        (fun r => decide (r.name = perturbation_multiplier_name "primal" "bound"))
      = [OptionRecordRef.double
          { type := HighsOptionType.kDouble
            name := "primal_simplex_bound_perturbation_multiplier"
            description := "Primal simplex bound perturbation multiplier: 0 => no perturbation"
            advanced := true
            value := ⟨this, DoubleField.primal_simplex_bound_perturbation_multiplier⟩
            lower_bound := Double.fin 0
            upper_bound := Double.pinf
            default_value := Double.fin 1 }] ∧
    (Mem.pushedSince m (initRecords k this m) this).filter
        (fun r => decide (r.name = perturbation_multiplier_name "primal" "cost")) = [] ∧
    (Mem.pushedSince m (initRecords k this m) this).filter
        (fun r => decide (r.name = perturbation_multiplier_name "dual" "bound")) = [] := by
  simp only [initRecords, OptionRecordInt.construct, OptionRecordBool.construct,
    OptionRecordDouble.construct, OptionRecordString.construct, Mem.pushedSince,
    Mem.recordsOf_alloc, Mem.recordsOf_push_back, Mem.recordsOf_writeInt,
    Mem.recordsOf_writeBool, Mem.recordsOf_writeDouble, Mem.recordsOf_writeString, if_true,
    List.append_assoc, List.cons_append, List.nil_append, List.drop_left,
    OptionRecordRef.name, OptionRecordRef.base, model_file_string, presolve_string,
    solver_string, parallel_string, time_limit_string, options_file_string, log_file_string,
    perturbation_multiplier_name, String.reduceAppend,
    List.filter_cons, List.filter_nil, String.reduceEq, decide_False, decide_True,
    Bool.false_eq_true, if_false, kHighsInf, and_self]

/-- C17 fails as stated. In the option set that `initRecords` builds (here for the
constants `sampleConsts`, in the object at address 0) no record is the multiplier of a
cost perturbation of the primal simplex, and none the multiplier of a bound perturbation
of the dual simplex. -/
theorem no_primal_cost_perturbation_multiplier :
    ¬ ((∃ r ∈ Mem.pushedSince sampleMem (initRecords sampleConsts 0 sampleMem) 0,
          r.name = perturbation_multiplier_name "primal" "cost") ∧
       (∃ r ∈ Mem.pushedSince sampleMem (initRecords sampleConsts 0 sampleMem) 0,
          r.name = perturbation_multiplier_name "dual" "bound")) := by
  rintro ⟨⟨r, hr, hname⟩, -⟩
  have h := (initRecords_perturbation_records sampleConsts 0 sampleMem).2.2.1
  have hmem : r ∈ (Mem.pushedSince sampleMem (initRecords sampleConsts 0 sampleMem) 0).filter
      (fun r => decide (r.name = perturbation_multiplier_name "primal" "cost")) := by
    rw [List.mem_filter]
    exact ⟨hr, decide_eq_true hname⟩
  rw [h] at hmem
  exact List.not_mem_nil r hmem

/-- C17, amended. The option set has exactly one cost-perturbation multiplier, which
belongs to the dual simplex (`dual_simplex_cost_perturbation_multiplier`), and exactly one
bound-perturbation multiplier, which belongs to the primal simplex
(`primal_simplex_bound_perturbation_multiplier`); each is a real option with lower bound
0 (its description: "0 => no perturbation"), default 1 and upper bound plus infinity.
There is no primal cost and no dual bound multiplier. -/
theorem perturbation_multipliers_registered (k : Consts) (this : Addr) (m : Mem) :
    (∃ r : OptionRecordDouble,
      (Mem.pushedSince m (initRecords k this m) this).filter
          (fun r => decide (r.name = perturbation_multiplier_name "dual" "cost"))
        = [OptionRecordRef.double r] ∧
      r.value = ⟨this, DoubleField.dual_simplex_cost_perturbation_multiplier⟩ ∧
      r.description = "Dual simplex cost perturbation multiplier: 0 => no perturbation" ∧
      r.lower_bound = Double.fin 0 ∧ r.default_value = Double.fin 1 ∧
      r.upper_bound = Double.pinf) ∧
    (∃ r : OptionRecordDouble,
      (Mem.pushedSince m (initRecords k this m) this).filter
          (fun r => decide (r.name = perturbation_multiplier_name "primal" "bound"))
        = [OptionRecordRef.double r] ∧
      r.value = ⟨this, DoubleField.primal_simplex_bound_perturbation_multiplier⟩ ∧
      r.description = "Primal simplex bound perturbation multiplier: 0 => no perturbation" ∧
      r.lower_bound = Double.fin 0 ∧ r.default_value = Double.fin 1 ∧
      r.upper_bound = Double.pinf) ∧
    (Mem.pushedSince m (initRecords k this m) this).filter
        (fun r => decide (r.name = perturbation_multiplier_name "primal" "cost")) = [] ∧
    (Mem.pushedSince m (initRecords k this m) this).filter
        (fun r => decide (r.name = perturbation_multiplier_name "dual" "bound")) = [] := by
  obtain ⟨h1, h2, h3, h4⟩ := initRecords_perturbation_records k this m
  exact ⟨⟨_, h1, rfl, rfl, rfl, rfl, rfl⟩, ⟨_, h2, rfl, rfl, rfl, rfl, rfl⟩, h3, h4⟩

/-! ## C12: the Hessian data of `test-qo1` -/

/-- C12. The Hessian data of `test-qo1` is well formed, its dimension is the number of
columns, the matrix it encodes is the symmetric matrix with rows `(2, 0, -1)`,
`(0, 0.2, 0)`, `(-1, 0, 2)`, and for every real `x` the objective `c.x + (1/2) x^T Q x`
of the model equals the objective written in the comment of the test. -/
theorem qo1_hessian_encodes_documented_objective :
    (qo1_model uncon).hessian_.wellFormed = true ∧
    (qo1_model uncon).hessian_.dim_ = (qo1_model uncon).lp_.numCol_ ∧
    (qo1_model uncon).lp_.colCost_ = [0, -1, -3] ∧
    (qo1_model uncon).hessian_.symmetric ∧
    ((List.range 3).map fun i => (List.range 3).map fun j =>
        (qo1_model uncon).hessian_.entry i j)
      = [[2, 0, -1], [0, 2 / 10, 0], [-1, 0, 2]] ∧
    ∀ x1 x2 x3 : ℝ,
      (qo1_model uncon).objective [x1, x2, x3] = qo1_documented_objective x1 x2 x3 := by
  refine ⟨by simp [HighsHessian.wellFormed, qo1_model], rfl, rfl, ?_, ?_, ?_⟩
  · intro i hi j hj
    have hi' : i < 3 := hi
    have hj' : j < 3 := hj
    interval_cases i <;> interval_cases j <;>
      norm_num [HighsHessian.entry, HighsHessian.column, qo1_model, List.range_succ,
        List.filter_cons]
  · norm_num [HighsHessian.entry, HighsHessian.column, qo1_model, List.range_succ,
      List.filter_cons]
  · intro x1 x2 x3
    rw [qo1_model_objective, qo1_documented_objective]
/-! ## C13: the quadratic term of `test-qo1` is positive definite -/

/-- The quadratic form of the Hessian of `test-qo1`, as a polynomial. -/
theorem qo1_quadraticForm {K : Type} [Field K] [CharZero K] (b : Bool) (x1 x2 x3 : K) :
    (qo1_model b).hessian_.quadraticForm [x1, x2, x3]
      = 2 * x1 ^ 2 - 2 * x1 * x3 + (2 / 10) * x2 ^ 2 + 2 * x3 ^ 2 := by
  simp only [HighsHessian.quadraticForm, HighsHessian.column, qo1_model,
    List.range_succ, List.range_zero, List.getD_cons_zero, List.getD_cons_succ, List.map_cons,
    List.map_nil, List.sum_cons, List.sum_nil, List.nil_append, List.cons_append,
    List.singleton_append, Nat.reduceSub, Nat.reduceAdd, zero_add]
  push_cast
  ring

/-- Every list of three reals is feasible for the model that `test-qo1` passes, and only
such lists are. -/
theorem qo1_feasible_iff (x : List ℝ) :
    (qo1_model uncon).feasible x ↔ x.length = 3 := by
  constructor
  · intro h; exact h.1
  · intro h
    refine ⟨h, ?_, ?_⟩
    · intro j hj
      have hj' : j < 3 := hj
      interval_cases j <;>
        simp [qo1_model, uncon, kHighsInf, Double.leValue, Double.valueLe]
    · intro i hi
      exact absurd hi (by simp [qo1_model, uncon])

set_option maxHeartbeats 2000000 in
/-- C13. The quadratic term of `test-qo1` is positive definite. The model that the test
passes is feasible at every point, its objective is bounded below by `-5.5`, and
`(1, 5, 2)` is its one and only minimiser; of the three definitive outcomes the model
admits optimal alone: it is neither infeasible nor unbounded. -/
theorem qo1_positive_definite :
    (∀ x1 x2 x3 : ℝ, ¬ (x1 = 0 ∧ x2 = 0 ∧ x3 = 0) →
      0 < (qo1_model uncon).hessian_.quadraticForm [x1, x2, x3]) ∧
    (∀ x1 x2 x3 : ℝ, (qo1_model uncon).feasible [x1, x2, x3]) ∧
    (∀ x1 x2 x3 : ℝ, -11 / 2 ≤ (qo1_model uncon).objective [x1, x2, x3]) ∧
    (∀ x1 x2 x3 : ℝ,
      (qo1_model uncon).objective [x1, x2, x3] = -11 / 2 ↔ x1 = 1 ∧ x2 = 5 ∧ x3 = 2) ∧
    (∀ s : DefinitiveStatus, (qo1_model uncon).admits s ↔ s = DefinitiveStatus.optimal) := by
  have hlow : ∀ x1 x2 x3 : ℝ, -11 / 2 ≤ (qo1_model uncon).objective [x1, x2, x3] := by
    intro x1 x2 x3
    rw [qo1_model_objective]
    nlinarith [sq_nonneg (x1 - 1 - (x3 - 2) / 2), sq_nonneg (x3 - 2), sq_nonneg (x2 - 5)]
  have hfeas : ∀ x1 x2 x3 : ℝ, (qo1_model uncon).feasible [x1, x2, x3] := by
    intro x1 x2 x3
    exact (qo1_feasible_iff _).mpr rfl
  have hlist : ∀ y : List ℝ, (qo1_model uncon).feasible y →
      ∃ y1 y2 y3 : ℝ, y = [y1, y2, y3] := by
    intro y hy
    have hlen := (qo1_feasible_iff y).mp hy
    match y, hlen with
    | [y1, y2, y3], _ => exact ⟨y1, y2, y3, rfl⟩
  refine ⟨?_, hfeas, hlow, ?_, ?_⟩
  · intro x1 x2 x3 hx
    rw [qo1_quadraticForm]
    have h : 2 * x1 ^ 2 - 2 * x1 * x3 + (2 / 10) * x2 ^ 2 + 2 * x3 ^ 2
        = x1 ^ 2 + (x1 - x3) ^ 2 + x3 ^ 2 + (1 / 5) * x2 ^ 2 := by ring
    rw [h]
    by_contra hnot
    have hle : x1 ^ 2 + (x1 - x3) ^ 2 + x3 ^ 2 + (1 / 5) * x2 ^ 2 ≤ 0 := not_lt.mp hnot
    have h1 : x1 ^ 2 = 0 := by
      nlinarith [sq_nonneg x1, sq_nonneg (x1 - x3), sq_nonneg x3, sq_nonneg x2]
    have h2 : x2 ^ 2 = 0 := by
      nlinarith [sq_nonneg x1, sq_nonneg (x1 - x3), sq_nonneg x3, sq_nonneg x2]
    have h3 : x3 ^ 2 = 0 := by
      nlinarith [sq_nonneg x1, sq_nonneg (x1 - x3), sq_nonneg x3, sq_nonneg x2]
    exact hx ⟨pow_eq_zero_iff (two_ne_zero) |>.mp h1, pow_eq_zero_iff (two_ne_zero) |>.mp h2,
      pow_eq_zero_iff (two_ne_zero) |>.mp h3⟩
  · intro x1 x2 x3
    rw [qo1_model_objective]
    constructor
    · intro h
      have hs : (x1 - 1 - (x3 - 2) / 2) ^ 2 + (3 / 4) * (x3 - 2) ^ 2
          + (1 / 10) * (x2 - 5) ^ 2 = 0 := by nlinarith
      have ha : (x3 - 2) ^ 2 = 0 := by
        nlinarith [sq_nonneg (x1 - 1 - (x3 - 2) / 2), sq_nonneg (x3 - 2), sq_nonneg (x2 - 5)]
      have hb : (x2 - 5) ^ 2 = 0 := by
        nlinarith [sq_nonneg (x1 - 1 - (x3 - 2) / 2), sq_nonneg (x3 - 2), sq_nonneg (x2 - 5)]
      have hc : (x1 - 1 - (x3 - 2) / 2) ^ 2 = 0 := by
        nlinarith [sq_nonneg (x1 - 1 - (x3 - 2) / 2), sq_nonneg (x3 - 2), sq_nonneg (x2 - 5)]
      have ha' : x3 - 2 = 0 := pow_eq_zero_iff (two_ne_zero) |>.mp ha
      have hb' : x2 - 5 = 0 := pow_eq_zero_iff (two_ne_zero) |>.mp hb
      have hc' : x1 - 1 - (x3 - 2) / 2 = 0 := pow_eq_zero_iff (two_ne_zero) |>.mp hc
      refine ⟨?_, ?_, ?_⟩ <;> linarith
    · rintro ⟨rfl, rfl, rfl⟩
      norm_num
  · intro s
    cases s with
    | optimal =>
      simp only [HighsModel.admits, iff_true]
      refine ⟨[1, 5, 2], hfeas 1 5 2, ?_⟩
      intro y hy
      obtain ⟨y1, y2, y3, rfl⟩ := hlist y hy
      show (qo1_model uncon).objective [(1 : ℝ), 5, 2] ≤ (qo1_model uncon).objective [y1, y2, y3]
      have h := hlow y1 y2 y3
      have h0 : (qo1_model uncon).objective [(1 : ℝ), 5, 2] = -11 / 2 := by
        rw [qo1_model_objective]; norm_num
      rw [h0]; exact h
    | infeasible =>
      simp only [HighsModel.admits, reduceCtorEq, iff_false, not_not]
      exact ⟨[0, 0, 0], hfeas 0 0 0⟩
    | unbounded =>
      simp only [HighsModel.admits, reduceCtorEq, iff_false, not_and]
      intro _ hall
      obtain ⟨y, hy, hbeyond⟩ := hall (-11 / 2)
      obtain ⟨y1, y2, y3, rfl⟩ := hlist y hy
      have hb : (qo1_model uncon).objective [y1, y2, y3] < -11 / 2 := hbeyond
      exact absurd hb (not_lt.mpr (hlow y1 y2 y3))

/-! ## What the constructors and assignments of `HighsOptions` change -/

namespace Mem

theorem options_writeBool_of_ne (m : Mem) (p : Ptr BoolField) (v : Bool) (a : Addr)
    (h : a ≠ p.obj) : (m.writeBool p v).options a = m.options a := by
  simp [writeBool, h]

theorem options_writeInt_of_ne (m : Mem) (p : Ptr IntField) (v : HighsInt) (a : Addr)
    (h : a ≠ p.obj) : (m.writeInt p v).options a = m.options a := by
  simp [writeInt, h]

theorem options_writeDouble_of_ne (m : Mem) (p : Ptr DoubleField) (v : Double) (a : Addr)
    (h : a ≠ p.obj) : (m.writeDouble p v).options a = m.options a := by
  simp [writeDouble, h]

theorem options_writeString_of_ne (m : Mem) (p : Ptr StringField) (v : String) (a : Addr)
    (h : a ≠ p.obj) : (m.writeString p v).options a = m.options a := by
  simp [writeString, h]

theorem options_alloc (m : Mem) (r : OptionRecordRef) (a : Addr) :
    (m.alloc r).options a = m.options a := by
  simp [alloc]

theorem options_push_back_of_ne (m : Mem) (this : Addr) (r : OptionRecordRef) (a : Addr)
    (h : a ≠ this) : (m.push_back this r).options a = m.options a := by
  simp [push_back, h]

end Mem

set_option maxRecDepth 100000 in
set_option maxHeartbeats 4000000 in
/-- The function `initRecords` changes no object other than the one it runs in. -/
theorem initRecords_options_of_ne (k : Consts) (this : Addr) (m : Mem) (a : Addr)
    (h : a ≠ this) : (initRecords k this m).options a = m.options a := by
  simp only [initRecords, OptionRecordInt.construct, OptionRecordBool.construct,
    OptionRecordDouble.construct, OptionRecordString.construct]
  simp only [Mem.options_alloc, Mem.options_push_back_of_ne _ _ _ _ h,
    Mem.options_writeBool_of_ne _ ⟨this, _⟩ _ _ h, Mem.options_writeInt_of_ne _ ⟨this, _⟩ _ _ h,
    Mem.options_writeDouble_of_ne _ ⟨this, _⟩ _ _ h,
    Mem.options_writeString_of_ne _ ⟨this, _⟩ _ _ h]

set_option maxRecDepth 100000 in
set_option maxHeartbeats 4000000 in
/-- After `initRecords`, the list `records` of the object it ran in is the former list
followed by the records pushed. -/
theorem initRecords_recordsOf_self (k : Consts) (this : Addr) (m : Mem) :
    (initRecords k this m).recordsOf this
      = m.recordsOf this ++ Mem.pushedSince m (initRecords k this m) this := by
  simp only [initRecords, OptionRecordInt.construct, OptionRecordBool.construct,
    OptionRecordDouble.construct, OptionRecordString.construct, Mem.pushedSince,
    Mem.recordsOf_alloc, Mem.recordsOf_push_back, Mem.recordsOf_writeInt,
    Mem.recordsOf_writeBool, Mem.recordsOf_writeDouble, Mem.recordsOf_writeString, if_true,
    List.append_assoc, List.cons_append, List.nil_append, List.drop_left]

set_option maxRecDepth 100000 in
set_option maxHeartbeats 4000000 in
/-- The function `initRecords` pushes 65 records. -/
theorem initRecords_pushed_length (k : Consts) (this : Addr) (m : Mem) :
    (Mem.pushedSince m (initRecords k this m) this).length = 65 := by
  simp only [initRecords, OptionRecordInt.construct, OptionRecordBool.construct,
    OptionRecordDouble.construct, OptionRecordString.construct, Mem.pushedSince,
    Mem.recordsOf_alloc, Mem.recordsOf_push_back, Mem.recordsOf_writeInt,
    Mem.recordsOf_writeBool, Mem.recordsOf_writeDouble, Mem.recordsOf_writeString, if_true,
    List.append_assoc, List.cons_append, List.nil_append, List.drop_left, List.length_cons,
    List.length_nil]

set_option maxRecDepth 100000 in
set_option maxHeartbeats 4000000 in
/-- The record of `simplex_iteration_limit` is among the records that `initRecords`
pushes. -/
theorem initRecords_pushed_simplex_iteration_limit (k : Consts) (this : Addr) (m : Mem) :
    OptionRecordRef.int
        { type := HighsOptionType.kInt
          name := "simplex_iteration_limit"
          description := "Iteration limit for simplex solver"
          advanced := false
          value := ⟨this, IntField.simplex_iteration_limit⟩
          lower_bound := 0
          default_value := kHighsIInf
          upper_bound := kHighsIInf }
      ∈ Mem.pushedSince m (initRecords k this m) this := by
  simp only [initRecords, OptionRecordInt.construct, OptionRecordBool.construct,
    OptionRecordDouble.construct, OptionRecordString.construct, Mem.pushedSince,
    Mem.recordsOf_alloc, Mem.recordsOf_push_back, Mem.recordsOf_writeInt,
    Mem.recordsOf_writeBool, Mem.recordsOf_writeDouble, Mem.recordsOf_writeString, if_true,
    List.append_assoc, List.cons_append, List.nil_append, List.drop_left, List.mem_cons,
    true_or, or_true]

/-- The function `initRecords` changes no list `records` other than the one of the object
it runs in. -/
theorem initRecords_recordsOf_of_ne (k : Consts) (this : Addr) (m : Mem) (a : Addr)
    (h : a ≠ this) : (initRecords k this m).recordsOf a = m.recordsOf a := by
  simp only [Mem.recordsOf, initRecords_options_of_ne k this m a h]

namespace Mem

theorem recordsOf_defaultInit (m : Mem) (this a : Addr) :
    (m.defaultInit this).recordsOf a = if a = this then [] else m.recordsOf a := by
  by_cases h : a = this
  · simp [recordsOf, defaultInit, h]
  · simp [recordsOf, defaultInit, h]

theorem options_defaultInit_of_ne (m : Mem) (this a : Addr) (h : a ≠ this) :
    (m.defaultInit this).options a = m.options a := by
  simp [defaultInit, h]

theorem recordsOf_assignStruct (m : Mem) (this other a : Addr) :
    (m.assignStruct this other).recordsOf a = m.recordsOf a := by
  by_cases h : a = this
  · simp [recordsOf, assignStruct, h]
  · simp [recordsOf, assignStruct, h]

theorem options_assignStruct_of_ne (m : Mem) (this other a : Addr) (h : a ≠ this) :
    (m.assignStruct this other).options a = m.options a := by
  simp [assignStruct, h]

theorem struct_assignStruct (m : Mem) (this other : Addr) :
    ((m.assignStruct this other).options this).toHighsOptionsStruct
      = (m.options other).toHighsOptionsStruct := by
  simp [assignStruct]

theorem recordsOf_moveRecords (m : Mem) (this options a : Addr) :
    (m.moveRecords this options).recordsOf a
      = if a = this then m.recordsOf options
        else if a = options then [] else m.recordsOf a := by
  by_cases h : a = this
  · simp [recordsOf, moveRecords, h]
  · by_cases h' : a = options
    · simp [recordsOf, moveRecords, h, h']
      subst h'
      simp [Function.update, h]
    · simp [recordsOf, moveRecords, h, h']

end Mem

/-- The list `records` of a default-constructed object holds the records that
`initRecords` pushes, and nothing else. -/
theorem construct_recordsOf (k : Consts) (setLogOptions : Addr → Mem → Mem)
    (hlog : KeepsOptions setLogOptions) (this : Addr) (m : Mem) :
    (HighsOptions.construct k setLogOptions this m).recordsOf this
      = Mem.pushedSince (m.defaultInit this) (initRecords k this (m.defaultInit this)) this := by
  simp only [HighsOptions.construct, hlog _ _, initRecords_recordsOf_self,
    Mem.recordsOf_defaultInit, if_true, List.nil_append]

/-- After `HighsOptions b(std::move(a))`, with `b` at `this` and `a` at `options`, the list
`records` of `b` is the list that `a` had, and `a` is left with none. -/
theorem construct_move_recordsOf (setLogOptions : Addr → Mem → Mem)
    (hlog : KeepsOptions setLogOptions) (this options : Addr) (h : options ≠ this) (m : Mem) :
    (HighsOptions.construct_move setLogOptions this options m).recordsOf this
        = m.recordsOf options ∧
    (HighsOptions.construct_move setLogOptions this options m).recordsOf options = [] := by
  simp only [HighsOptions.construct_move, hlog _ _, Mem.recordsOf_assignStruct,
    Mem.recordsOf_moveRecords, Mem.recordsOf_defaultInit, if_true, h, if_false, and_self]

/-- Every record of a default-constructed object targets a member of that object. -/
theorem construct_records_target (k : Consts) (setLogOptions : Addr → Mem → Mem)
    (hlog : KeepsOptions setLogOptions) (this : Addr) (m : Mem) :
    ∀ r ∈ (HighsOptions.construct k setLogOptions this m).recordsOf this,
      r.target.obj = this := by
  rw [construct_recordsOf _ _ hlog]
  exact initRecords_pushed_target _ _ _

/-- Every record of a copy-constructed object targets a member of that object. -/
theorem construct_copy_records_target (k : Consts) (setLogOptions : Addr → Mem → Mem)
    (hlog : KeepsOptions setLogOptions) (this options : Addr) (m : Mem) :
    ∀ r ∈ (HighsOptions.construct_copy k setLogOptions this options m).recordsOf this,
      r.target.obj = this := by
  simp only [HighsOptions.construct_copy, hlog _ _, Mem.recordsOf_assignStruct,
    initRecords_recordsOf_self, Mem.recordsOf_defaultInit, if_true, List.nil_append]
  exact initRecords_pushed_target _ _ _
/-! ## C18: the records of a move-constructed object -/

/-- C18, evaluated on the code. Let `a` be default-constructed at address 0 and `b` be
move-constructed from `a` at address 1 (`sampleMoved`). Then `b` holds 65 records and
every one of them targets a member of `a`, not of `b`, while `a` is left without
records. Storing a value through the record of `simplex_iteration_limit` found in the
list of `b` changes that member of `a` and leaves the member of `b` as it was. -/
theorem move_constructor_records_target_source :
    (sampleMoved.recordsOf 1).length = 65 ∧
    (∀ r ∈ sampleMoved.recordsOf 1, r.target.obj = 0) ∧
    sampleMoved.recordsOf 0 = [] ∧
    ∃ r : OptionRecordInt,
      OptionRecordRef.int r ∈ sampleMoved.recordsOf 1 ∧
      r.name = "simplex_iteration_limit" ∧
      ∀ v : HighsInt,
        (r.assignvalue v sampleMoved).readInt ⟨0, IntField.simplex_iteration_limit⟩ = v ∧
        (r.assignvalue v sampleMoved).readInt ⟨1, IntField.simplex_iteration_limit⟩
          = sampleMoved.readInt ⟨1, IntField.simplex_iteration_limit⟩ := by
  have hlog : KeepsOptions sampleSetLogOptions := fun _ _ => rfl
  have hmove := construct_move_recordsOf sampleSetLogOptions hlog 1 0 (by decide)
    sampleConstructed
  have hrec : sampleMoved.recordsOf 1
      = Mem.pushedSince (sampleMem.defaultInit 0)
          (initRecords sampleConsts 0 (sampleMem.defaultInit 0)) 0 := by
    rw [sampleMoved, hmove.1, sampleConstructed, construct_recordsOf _ _ hlog]
  refine ⟨?_, ?_, hmove.2, ?_⟩
  · rw [hrec]; exact initRecords_pushed_length _ _ _
  · rw [hrec]; exact initRecords_pushed_target _ _ _
  · refine ⟨{ type := HighsOptionType.kInt
              name := "simplex_iteration_limit"
              description := "Iteration limit for simplex solver"
              advanced := false
              value := ⟨0, IntField.simplex_iteration_limit⟩
              lower_bound := 0
              default_value := kHighsIInf
              upper_bound := kHighsIInf }, ?_, rfl, ?_⟩
    · rw [hrec]; exact initRecords_pushed_simplex_iteration_limit _ _ _
    · intro v
      constructor
      · simp [OptionRecordInt.assignvalue, Mem.readInt_writeInt]
      · simp [OptionRecordInt.assignvalue, Mem.readInt_writeInt]
/-! ## C19: copying options copies values -/

/-- C19. Let `setLogOptions` change no option and no record, and let `b`, at `this`, and
`a`, at `other`, be two distinct objects. After `HighsOptions b(a)`, after `b = a`, and
after `Highs(a)` for its member `options_` at `this`: the option members of `b` are
those of `a`; the records of `b` are the ones made at its construction (after `b = a`:
the ones it already had, or, if it had none, the ones `initRecords` then makes); `a` is
unchanged. Assigning an object to itself changes nothing. -/
theorem copy_copies_values_only (k : Consts) (setLogOptions : Addr → Mem → Mem)
    (hlog : KeepsOptions setLogOptions) (this other : Addr) (h : other ≠ this) (m : Mem) :
    (((HighsOptions.construct_copy k setLogOptions this other m).options this).toHighsOptionsStruct
        = (m.options other).toHighsOptionsStruct ∧
      (HighsOptions.construct_copy k setLogOptions this other m).recordsOf this
        = (HighsOptions.construct k setLogOptions this m).recordsOf this ∧
      (HighsOptions.construct_copy k setLogOptions this other m).options other
        = m.options other) ∧
    (((HighsOptions.assign k setLogOptions this other m).options this).toHighsOptionsStruct
        = (m.options other).toHighsOptionsStruct ∧
      (HighsOptions.assign k setLogOptions this other m).recordsOf this
        = (if (m.recordsOf this).length = 0 then Mem.pushedSince m (initRecords k this m) this
           else m.recordsOf this) ∧
      (HighsOptions.assign k setLogOptions this other m).options other = m.options other) ∧
    HighsOptions.assign k setLogOptions this this m = m ∧
    (((Highs.construct_options k setLogOptions this other m).options this).toHighsOptionsStruct
        = (m.options other).toHighsOptionsStruct ∧
      (Highs.construct_options k setLogOptions this other m).recordsOf this
        = (HighsOptions.construct k setLogOptions this m).recordsOf this ∧
      (Highs.construct_options k setLogOptions this other m).options other
        = m.options other) := by
  have hassign : ∀ m0 : Mem,
      ((HighsOptions.assign k setLogOptions this other m0).options this).toHighsOptionsStruct
          = (m0.options other).toHighsOptionsStruct ∧
      (HighsOptions.assign k setLogOptions this other m0).recordsOf this
          = (if (m0.recordsOf this).length = 0
              then Mem.pushedSince m0 (initRecords k this m0) this
             else m0.recordsOf this) ∧
      (HighsOptions.assign k setLogOptions this other m0).options other = m0.options other := by
    intro m0
    by_cases hz : (m0.recordsOf this).length = 0
    · have hnil : m0.recordsOf this = [] := List.length_eq_zero.mp hz
      simp only [HighsOptions.assign, ne_eq, h, not_false_eq_true, if_true, if_pos hz,
        hlog _ _, Mem.struct_assignStruct, Mem.recordsOf_assignStruct,
        Mem.options_assignStruct_of_ne _ _ _ _ h, initRecords_options_of_ne _ _ _ _ h,
        initRecords_recordsOf_self, true_and, and_true]
      rw [hnil, List.nil_append]
    · simp only [HighsOptions.assign, ne_eq, h, not_false_eq_true, if_true, if_neg hz,
        hlog _ _, Mem.struct_assignStruct, Mem.recordsOf_assignStruct,
        Mem.options_assignStruct_of_ne _ _ _ _ h, and_self]
  refine ⟨?_, hassign m, ?_, ?_⟩
  · simp only [HighsOptions.construct_copy, HighsOptions.construct, hlog _ _,
      Mem.struct_assignStruct, Mem.recordsOf_assignStruct,
      Mem.options_assignStruct_of_ne _ _ _ _ h, initRecords_options_of_ne _ _ _ _ h,
      Mem.options_defaultInit_of_ne _ _ _ h, and_self]
  · simp [HighsOptions.assign]
  · obtain ⟨h1, h2, h3⟩ := hassign (HighsOptions.construct k setLogOptions this m)
    have hother : (HighsOptions.construct k setLogOptions this m).options other
        = m.options other := by
      simp only [HighsOptions.construct, hlog _ _, initRecords_options_of_ne _ _ _ _ h,
        Mem.options_defaultInit_of_ne _ _ _ h]
    have hlen : ((HighsOptions.construct k setLogOptions this m).recordsOf this).length ≠ 0 := by
      rw [construct_recordsOf _ _ hlog, initRecords_pushed_length]
      decide
    refine ⟨?_, ?_, ?_⟩
    · rw [Highs.construct_options, h1, hother]
    · rw [Highs.construct_options, h2, if_neg hlen]
    · rw [Highs.construct_options, h3, hother]

/-- C19 at a concrete input: the object at address 1 copied from the default-constructed
object at address 0, with a `setLogOptions` that changes nothing. -/
theorem copy_copies_values_only_witness :
    ((HighsOptions.construct_copy sampleConsts sampleSetLogOptions 1 0
          sampleConstructed).options 1).toHighsOptionsStruct
        = (sampleConstructed.options 0).toHighsOptionsStruct ∧
    (HighsOptions.construct_copy sampleConsts sampleSetLogOptions 1 0
          sampleConstructed).options 0 = sampleConstructed.options 0 :=
  have h := (copy_copies_values_only sampleConsts sampleSetLogOptions (fun _ _ => rfl) 1 0
    (by decide) sampleConstructed).1
  ⟨h.1, h.2.2⟩

/-! ## C20: `Highs::setBasis` -/

/-- C20. For every basis, `setBasis` returns `HighsStatus::OK`, leaves the argument in
`basis_`, and changes neither `lp_`, `solution_`, `options_` (nor any other member), nor
the memory that holds the options. -/
theorem setBasis_stores_without_validation
    {HighsSolution HighsBasis_new HighsModelObject HighsTimer : Type}
    (self : Highs HighsSolution HighsBasis_new HighsModelObject HighsTimer)
    (basis : HighsBasis_new) (m : Mem) :
    (self.setBasis basis m).1 = HighsStatus.OK ∧
    (self.setBasis basis m).2.1.basis_ = basis ∧
    (self.setBasis basis m).2.1.lp_ = self.lp_ ∧
    (self.setBasis basis m).2.1.solution_ = self.solution_ ∧
    (self.setBasis basis m).2.1.options_ = self.options_ ∧
    (self.setBasis basis m).2.1.hmos_ = self.hmos_ ∧
    (self.setBasis basis m).2.1.timer_ = self.timer_ ∧
    (self.setBasis basis m).2.1.simplex_has_run_ = self.simplex_has_run_ ∧
    (self.setBasis basis m).2.2 = m :=
  ⟨rfl, rfl, rfl, rfl, rfl, rfl, rfl, rfl, rfl⟩

/-! ## Instances of C13, C15 and C16 -/

/-- C13 at a concrete input: the quadratic form is positive at `x = (1, 0, 0)`. -/
theorem qo1_positive_definite_witness :
    0 < (qo1_model uncon).hessian_.quadraticForm [(1 : ℝ), 0, 0] :=
  qo1_positive_definite.1 1 0 0 (by norm_num)

/-- C15 at a concrete input: the record of `simplex_iteration_limit` is among the records
pushed in the object at address 0, and at most one pushed record bears its name. -/
theorem initRecords_names_distinct_witness :
    OptionRecordRef.int
        { type := HighsOptionType.kInt
          name := "simplex_iteration_limit"
          description := "Iteration limit for simplex solver"
          advanced := false
          value := ⟨0, IntField.simplex_iteration_limit⟩
          lower_bound := 0
          default_value := kHighsIInf
          upper_bound := kHighsIInf }
      ∈ Mem.pushedSince sampleMem (initRecords sampleConsts 0 sampleMem) 0 ∧
    ((Mem.pushedSince sampleMem (initRecords sampleConsts 0 sampleMem) 0).filter
      (fun r => decide (r.name = "simplex_iteration_limit"))).length ≤ 1 :=
  ⟨initRecords_pushed_simplex_iteration_limit sampleConsts 0 sampleMem,
   (initRecords_names_distinct sampleConsts 0 sampleMem).2.2 "simplex_iteration_limit"⟩

/-- C16 at a concrete input: the record of `simplex_iteration_limit` in the object at
address 0 is an `OptionRecordInt` and carries the tag `kInt`. -/
theorem initRecords_type_is_kind_witness :
    (OptionRecordRef.int
        { type := HighsOptionType.kInt
          name := "simplex_iteration_limit"
          description := "Iteration limit for simplex solver"
          advanced := false
          value := ⟨0, IntField.simplex_iteration_limit⟩
          lower_bound := 0
          default_value := kHighsIInf
          upper_bound := kHighsIInf }).type = HighsOptionType.kInt :=
  (initRecords_type_is_kind sampleConsts 0 sampleMem).2.1 _
    (initRecords_pushed_simplex_iteration_limit sampleConsts 0 sampleMem)

/-! ## C21: the assertions that `test-qo1` executes -/

/-- The loop of `test-qo1` executes no assertion, and so no pass through its body, when it
is entered with a value of `test_k` that is not below 2. -/
theorem qo1_loop_of_not_lt (calls : Qo1Calls) (test_k : HighsInt) (h : ¬ test_k < 2) :
    qo1_loop calls test_k = [] := by
  rw [qo1_loop, dif_neg h]

/-- Entered with `test_k = 0` and calls that all succeed, the loop passes twice through its
body and compares the objective value twice with the required value. -/
theorem qo1_loop_from_zero :
    qo1_loop sampleQo1Calls 0
      = [Requirement.status_is_kOk 100 HighsStatus.kOk,
         Requirement.status_is_kOk 102 HighsStatus.kOk,
         Requirement.objective_is_required_value 104 required_objective_function_value,
         Requirement.status_is_kOk 100 HighsStatus.kOk,
         Requirement.status_is_kOk 102 HighsStatus.kOk,
         Requirement.objective_is_required_value 104 required_objective_function_value] := by
  rw [qo1_loop, dif_pos (by decide), qo1_loop, dif_pos (by decide),
    qo1_loop_of_not_lt _ _ (by decide)]
  simp [Requirement.andThen, Requirement.holds, sampleQo1Calls, HighsStatus.kOk,
    double_equal_tolerance]

/-- C21. Whatever the calls of the test hand back: the loop of `test-qo1`, entered with
`test_k = 3`, executes none of its assertions, so its body is never run; no assertion that
the test executes compares an objective value with `required_objective_function_value`;
the test executes the `REQUIRE` that `passModel` returned `kOk` and, if that one holds,
the `REQUIRE` that `run` returned `kOk`, and no other. -/
theorem test_qo1_executed_requirements (calls : Qo1Calls) :
    ¬ ((3 : HighsInt) < 2) ∧
    qo1_loop calls 3 = [] ∧
    (∀ r ∈ test_qo1 calls, r.comparesObjective = false) ∧
    test_qo1 calls
      = Requirement.status_is_kOk 76 calls.passModel ::
          (if calls.passModel = HighsStatus.kOk
            then [Requirement.status_is_kOk 79 calls.run] else []) ∧
    (∀ r ∈ test_qo1 calls,
      r = Requirement.status_is_kOk 76 calls.passModel ∨
      r = Requirement.status_is_kOk 79 calls.run) := by
  have hloop : qo1_loop calls 3 = [] := qo1_loop_of_not_lt calls 3 (by decide)
  have htest : test_qo1 calls
      = Requirement.status_is_kOk 76 calls.passModel ::
          (if calls.passModel = HighsStatus.kOk
            then [Requirement.status_is_kOk 79 calls.run] else []) := by
    simp [test_qo1, hloop, Requirement.andThen, Requirement.holds]
  refine ⟨by decide, hloop, ?_, htest, ?_⟩
  · intro r hr
    rw [htest] at hr
    by_cases hp : calls.passModel = HighsStatus.kOk
    · simp [hp] at hr
      rcases hr with rfl | rfl <;> rfl
    · simp [hp] at hr
      subst hr
      rfl
  · intro r hr
    rw [htest] at hr
    by_cases hp : calls.passModel = HighsStatus.kOk
    · simp [hp] at hr
      rcases hr with h | h
      · left; rw [h, hp]
      · right; exact h
    · simp [hp] at hr
      left; exact hr

/-- C21 at a concrete input: with calls that all succeed, the test executes the two
assertions on `passModel` and `run`, and neither compares an objective value. -/
theorem test_qo1_executed_requirements_witness :
    test_qo1 sampleQo1Calls
      = [Requirement.status_is_kOk 76 HighsStatus.kOk,
         Requirement.status_is_kOk 79 HighsStatus.kOk] ∧
    (Requirement.status_is_kOk 79 HighsStatus.kOk).comparesObjective = false :=
  have h := test_qo1_executed_requirements sampleQo1Calls
  ⟨by rw [h.2.2.2.1]; rfl,
   h.2.2.1 _ (by rw [h.2.2.2.1]; simp [sampleQo1Calls])⟩

end HiGHS
